import Mathlib

/-!
# pritunl-api-go, `server.go`: the server resource client

A shallow embedding of `server.go` and of the part of Go's `encoding/json`
that `server.go` runs through (`json.Unmarshal` into `[]ServerResponse` and
`ServerResponse`, `json.Marshal` of `ServerRequest`), followed by theorems
about `handleUnmarshalServers`, `ServerGet`, `ServerCreate` and
`ServerUpdate`.

Modelling conventions

* Go `int` / `uint` are the 64-bit ones, carried as bounded integers.
* Go `string` is a Lean `String`, i.e. the strings that are valid UTF-8.  These
  are the strings `json.Unmarshal` produces; `json.Marshal` coerces any other
  string to valid UTF-8 before writing it.
* A slice is `Option (List α)`: `none` is the nil slice, `some []` the empty
  non-nil one.  `json.Unmarshal` decodes an array element beyond the length of
  a slice into what the backing array holds there; for the slice fields of the
  struct being decoded that spare capacity is carried along (`Spare`), and a
  slice the caller supplies is taken to have none, which is the case for every
  slice `server.go` hands to `json.Unmarshal`.
* The lexical layer of `encoding/json` (scanner, white space, string escapes,
  decimal digits) is not part of the repository and is not modelled: a byte
  sequence is represented by what the scanner makes of it, either malformed
  text or the JSON value it denotes (`Bytes`), and `json.Marshal` produces the
  value whose compact rendering it writes.  A number is its token (`JNumber`).
* A float64 is a finite binary floating-point number (`F64`): a number token is
  read by rounding to the nearest one (`ParseFloat`), and a float64 is written
  as the shortest decimal that reads back as it (`F64.format`).
* The dynamic value of an `interface{}` is one of the values `json.Unmarshal`
  stores there, a Go `int`, or any other value, given by what `json.Marshal`
  makes of it (`GoAny.other`).
* A `json.UnmarshalTypeError` is carried with its `Value` and `Type`; its
  offset and field path, and the number token Go appends to `Value`, are left
  out.
* The collaborators `Client.AuthRequest` and `handleResponse` are defined
  elsewhere in the library; they are parameters (`Client`), given by their
  outcome on each request.  Every operation returns, besides the Go results,
  the trace of what it did.
-/

namespace Pritunl

/-! ## Go values -/

/-- Go `int` (64-bit). -/
abbrev GoInt := { i : Int // -9223372036854775808 ≤ i ∧ i ≤ 9223372036854775807 }

/-- Go `uint` (64-bit). -/
abbrev GoUint := { n : Nat // n ≤ 18446744073709551615 }

/-- The zero value of `int`. -/
def GoInt.zero : GoInt := ⟨0, by decide⟩

/-- The zero value of `uint`. -/
def GoUint.zero : GoUint := ⟨0, by decide⟩

/-- A Go slice: `none` is nil. -/
abbrev Slice (α : Type) := Option (List α)

/-- Go `len(s)`. -/
def Slice.len {α : Type} (s : Slice α) : Nat := (s.getD []).length

/-- Go `append(s, x)`: the result is never nil. -/
def Slice.append {α : Type} (s : Slice α) (x : α) : Slice α := some (s.getD [] ++ [x])

/-- Go errors that occur in `server.go`. -/
inductive GoError
  /-- an error of a collaborator (transport, status, read) -/
  | other (msg : String)
  /-- `*json.SyntaxError`: the text is not JSON -/
  | invalidJSON (msg : String)
  /-- `*json.UnmarshalTypeError` with its `Value` and `Type` -/
  | unmarshalType (value : String) (goType : String)
  /-- `*json.UnsupportedTypeError` / `*json.UnsupportedValueError` -/
  | unsupportedValue (what : String)
  /-- `fmt.Errorf(msg + ": %w", inner)` -/
  | wrap (msg : String) (inner : GoError)
deriving DecidableEq, Repr

/-- Go `errors.Unwrap`. -/
def GoError.Unwrap : GoError → Option GoError
  | .wrap _ inner => some inner
  | _ => none

/-! ## JSON values -/

/-- A JSON number token: optional minus sign, integer part, optional fraction
digits, optional exponent. -/
structure JNumber where
  neg : Bool
  int : Nat
  frac : Option (List (Fin 10))
  exp : Option Int
deriving DecidableEq, Repr

/-- A finite float64: sign, significand and binary exponent, of value
`mant * 2 ^ exp`.  A normal number has `2 ^ 52 ≤ mant < 2 ^ 53` and
`-1074 ≤ exp ≤ 971`; a subnormal number or zero has `mant < 2 ^ 52` and
`exp = -1074`.  These are the triples `ParseFloat` yields; a triple of another
form stands for no float64. -/
structure F64 where
  neg : Bool
  mant : Nat
  exp : Int
deriving DecidableEq, Repr

/-- The value of a float64, as a rational number. -/
def F64.value (f : F64) : ℚ :=
  (if f.neg then -1 else 1) * (f.mant : ℚ) * (2 : ℚ) ^ f.exp

/-- A JSON value; an object keeps its members in order, duplicates included. -/
inductive JSON
  | null
  | bool (b : Bool)
  | num (n : JNumber)
  | str (s : String)
  | arr (elems : List JSON)
  | obj (members : List (String × JSON))
deriving Repr

/-- The `Value` that a `json.UnmarshalTypeError` reports for a JSON value. -/
def JSON.kindName : JSON → String
  | .null => "null"
  | .bool _ => "bool"
  | .num _ => "number"
  | .str _ => "string"
  | .arr _ => "array"
  | .obj _ => "object"

/-- A byte sequence, as `encoding/json` reads it: text its scanner rejects
(`checkValid` fails with a `SyntaxError`), or a JSON value. -/
inductive Bytes
  | malformed (msg : String)
  | json (v : JSON)
deriving Repr

/-- The dynamic values of an `interface{}` field: nothing; the values
`json.Unmarshal` stores in an `interface{}` (bool, float64, string, non-nil
`[]interface{}` and `map[string]interface{}`); a Go `int`; and any other value,
which is given by what `json.Marshal` makes of it, the one thing `server.go`
does with the `MssFix` of a request. -/
inductive GoAny
  | nil
  | bool (b : Bool)
  | int (i : GoInt)
  | float64 (f : F64)
  | string (s : String)
  | slice (xs : List GoAny)
  /-- a `map[string]interface{}`, keys in order of first insertion -/
  | map (m : List (String × GoAny))
  /-- any other value: a nil pointer, nil map or nil slice (written as null), a
  `json.Number`, a `json.RawMessage`, a `Marshaler`, a struct (written as the
  JSON value `enc`), or a channel, a func, a NaN (rejected with the error
  `enc`) -/
  | other (enc : Except GoError JSON)

/-! ## `encoding/json`: decoding -/

/-- The digits of a number token as one natural number: integer part followed
by the fraction digits. -/
def JNumber.mantissa (n : JNumber) : Nat :=
  (n.frac.getD []).foldl (fun acc d => acc * 10 + d.val) n.int

/-- Decimal exponent that goes with `mantissa`. -/
def JNumber.scale (n : JNumber) : Int :=
  n.exp.getD 0 - ((n.frac.getD []).length : Int)

/-- Halving steps until the number is below 2, at most `fuel` of them. -/
def log2Aux : Nat → Nat → Nat
  | 0, _ => 0
  | fuel + 1, n => if 2 ≤ n then log2Aux fuel (n / 2) + 1 else 0

/-- The position of the leading bit of a positive number:
`2 ^ floorLog2 n ≤ n < 2 ^ (floorLog2 n + 1)`. -/
def floorLog2 (n : Nat) : Nat := log2Aux n n

/-- Whether `a / b` is at least `2 ^ e`. -/
def geTwoPow (a b : Nat) (e : Int) : Bool :=
  if 0 ≤ e then decide (2 ^ e.toNat * b ≤ a) else decide (b ≤ a * 2 ^ (-e).toNat)

/-- The float64 with the rounded significand `m` and exponent `x`: a significand
that rounding took up to `2 ^ 53` moves to the next exponent, and an exponent
beyond the largest one gives none. -/
def packF64 (neg : Bool) (m : Nat) (x : Int) : Option F64 :=
  if m = 2 ^ 53 then (if 971 < x + 1 then none else some ⟨neg, 2 ^ 52, x + 1⟩)
  else (if 971 < x then none else some ⟨neg, m, x⟩)

/-- The float64 nearest to `a / b` (`b` positive), a tie going to the even
significand; none when that is beyond the largest float64. -/
def roundToF64 (neg : Bool) (a b : Nat) : Option F64 :=
  if a = 0 then some ⟨neg, 0, -1074⟩
  else
    let e0 : Int := (floorLog2 a : Int) - (floorLog2 b : Int)
    let e : Int := if geTwoPow a b e0 then e0 else e0 - 1
    let x : Int := max (e - 52) (-1074)
    let num : Nat := if 0 ≤ x then a else a * 2 ^ (-x).toNat
    let den : Nat := if 0 ≤ x then b * 2 ^ x.toNat else b
    let q := num / den
    let r := num % den
    packF64 neg (if den < 2 * r ∨ (2 * r = den ∧ q % 2 = 1) then q + 1 else q) x

/-- `strconv.ParseFloat(s, 64)` on a number token: the nearest float64, or none
for the range error. -/
def ParseFloat (n : JNumber) : Option F64 :=
  if 0 ≤ n.scale then roundToF64 n.neg (n.mantissa * 10 ^ n.scale.toNat) 1
  else roundToF64 n.neg n.mantissa (10 ^ (-n.scale).toNat)

/-- `strconv.ParseInt(s, 10, 64)` on a number token. -/
def ParseInt (n : JNumber) : Option GoInt :=
  if n.frac.isSome || n.exp.isSome then none
  else
    let v : Int := if n.neg then -(n.int : Int) else (n.int : Int)
    if h : -9223372036854775808 ≤ v ∧ v ≤ 9223372036854775807 then some ⟨v, h⟩ else none

/-- `strconv.ParseUint(s, 10, 64)` on a number token: no sign is accepted. -/
def ParseUint (n : JNumber) : Option GoUint :=
  if n.frac.isSome || n.exp.isSome || n.neg then none
  else if h : n.int ≤ 18446744073709551615 then some ⟨n.int, h⟩ else none

/-- Decode into a `string` (`literalStore`): null leaves the value alone. -/
def decodeString (v : JSON) (old : String) : String × Option GoError :=
  match v with
  | .null => (old, none)
  | .str s => (s, none)
  | other => (old, some (.unmarshalType other.kindName "string"))

/-- Decode into a `bool`. -/
def decodeBool (v : JSON) (old : Bool) : Bool × Option GoError :=
  match v with
  | .null => (old, none)
  | .bool b => (b, none)
  | other => (old, some (.unmarshalType other.kindName "bool"))

/-- Decode into an `int`. -/
def decodeInt (v : JSON) (old : GoInt) : GoInt × Option GoError :=
  match v with
  | .null => (old, none)
  | .num n =>
    match ParseInt n with
    | some i => (i, none)
    | none => (old, some (.unmarshalType "number" "int"))
  | other => (old, some (.unmarshalType other.kindName "int"))

/-- Decode into a `uint`. -/
def decodeUint (v : JSON) (old : GoUint) : GoUint × Option GoError :=
  match v with
  | .null => (old, none)
  | .num n =>
    match ParseUint n with
    | some i => (i, none)
    | none => (old, some (.unmarshalType "number" "uint"))
  | other => (old, some (.unmarshalType other.kindName "uint"))

/-- Decode into a pointer (`indirect`): null sets it to nil, anything else
allocates the pointee when the pointer is nil and decodes into it. -/
def decodePtr {α : Type} (dec : JSON → α → α × Option GoError) (zero : α)
    (v : JSON) (old : Option α) : Option α × Option GoError :=
  match v with
  | .null => (none, none)
  | other => let r := dec other (old.getD zero); (some r.1, r.2)

/-- The element loop of `decodeState.array`: element `i` is decoded into what
the backing array holds at `i` (an existing element, or what the spare capacity
holds) and into a zero value beyond it; only the first error is kept
(`saveError`). -/
def decodeElems {α : Type} (dec : JSON → α → α × Option GoError) (zero : α) :
    List JSON → List α → List α × Option GoError
  | [], _ => ([], none)
  | j :: js, olds =>
    let r := dec j (olds.headD zero)
    let rs := decodeElems dec zero js olds.tail
    (r.1 :: rs.1, r.2 <|> rs.2)

/-- What the spare capacity holds after an array of `n` elements was decoded
into the backing array `base`: the old contents beyond `n`; nothing when the
slice was replaced by a fresh one (`n = 0`) or had to grow. -/
def spareAfter {α : Type} (n : Nat) (base : List α) : List α :=
  if n = 0 then [] else base.drop n

/-- Decode into a slice (`decodeState.array`, `literalStore`), given the slice
and what its spare capacity holds; returns both.  Null gives the nil slice, an
array a non-nil slice of its length, anything else is a type error that leaves
the slice alone. -/
def decodeSlice {α : Type} (dec : JSON → α → α × Option GoError) (zero : α)
    (goType : String) (v : JSON) (old : Slice α) (spare : List α) :
    (Slice α × List α) × Option GoError :=
  match v with
  | .null => ((none, []), none)
  | .arr elems =>
    let r := decodeElems dec zero elems (old.getD [] ++ spare)
    ((some r.1, spareAfter elems.length (old.getD [] ++ spare)), r.2)
  | other => ((old, spare), some (.unmarshalType other.kindName goType))

/-- Go `m[k] = v` on a map kept as an association list. -/
def mapSet (m : List (String × GoAny)) (k : String) (v : GoAny) : List (String × GoAny) :=
  match m with
  | [] => [(k, v)]
  | (k1, v1) :: rest => if k1 = k then (k1, v) :: rest else (k1, v1) :: mapSet rest k v

mutual
/-- `decodeState.valueInterface`: decode into a fresh `interface{}`.  A number
out of float64 range is an error and yields nil. -/
def decodeAny : JSON → GoAny × Option GoError
  | .null => (.nil, none)
  | .bool b => (.bool b, none)
  | .num n =>
    match ParseFloat n with
    | none => (.nil, some (.unmarshalType "number" "float64"))
    | some f => (.float64 f, none)
  | .str s => (.string s, none)
  | .arr elems => let r := decodeAnyElems elems; (.slice r.1, r.2)
  | .obj members => let r := decodeAnyMembers members []; (.map r.1, r.2)
/-- `decodeState.arrayInterface`. -/
def decodeAnyElems : List JSON → List GoAny × Option GoError
  | [] => ([], none)
  | j :: js =>
    let r := decodeAny j
    let rs := decodeAnyElems js
    (r.1 :: rs.1, r.2 <|> rs.2)
/-- `decodeState.objectInterface`. -/
def decodeAnyMembers : List (String × JSON) → List (String × GoAny) →
    List (String × GoAny) × Option GoError
  | [], m => (m, none)
  | (k, v) :: rest, m =>
    let r := decodeAny v
    let rs := decodeAnyMembers rest (mapSet m k r.1)
    (rs.1, r.2 <|> rs.2)
end

/-- Decode into an `interface{}` field (`literalStore`, `array`, `object` on a
value of kind interface): as `decodeAny`, except that a number out of float64
range leaves the old value in place.  The old value is nil or one that
`json.Unmarshal` stored; a non-nil pointer there, into whose target Go decodes,
does not arise, as `server.go` decodes into fresh structs only. -/
def decodeInterface (v : JSON) (old : GoAny) : GoAny × Option GoError :=
  match v with
  | .num n =>
    match ParseFloat n with
    | none => (old, some (.unmarshalType "number" "float64"))
    | some f => (.float64 f, none)
  | other => decodeAny other

/-! ## The data model of `server.go` -/

/-- The Go struct `ServerResponse`; the defaults are the zero values. -/
structure ServerResponse where
  ID : String := ""
  Status : String := ""
  Uptime : GoUint := GoUint.zero
  UsersOnline : GoInt := GoInt.zero
  DevicesOnline : GoInt := GoInt.zero
  UserCount : GoInt := GoInt.zero
  Name : String := ""
  Network : String := ""
  NetworkWg : String := ""
  NetworkMode : String := ""
  NetworkStart : Option String := none
  NetworkEnd : Option String := none
  RestrictRoutes : Bool := false
  Wg : Bool := false
  Ipv6 : Bool := false
  Ipv6Firewall : Bool := false
  DynamicFirewall : Bool := false
  DeviceAuth : Bool := false
  BindAddress : Option String := none
  Protocol : String := ""
  Port : GoInt := GoInt.zero
  PortWg : GoInt := GoInt.zero
  DhParamBits : GoInt := GoInt.zero
  Groups : Slice String := none
  MultiDevice : Bool := false
  DnsServers : Slice String := none
  SearchDomain : String := ""
  InterClient : Bool := false
  PingInterval : GoInt := GoInt.zero
  PingTimeout : GoInt := GoInt.zero
  LinkPingInterval : GoInt := GoInt.zero
  LinkPingTimeout : GoInt := GoInt.zero
  InactiveTimeout : Option GoInt := none
  SessionTimeout : Option GoInt := none
  AllowedDevices : Option String := none
  MaxClients : GoInt := GoInt.zero
  MaxDevices : GoInt := GoInt.zero
  ReplicaCount : GoInt := GoInt.zero
  Vxlan : Bool := false
  DnsMapping : Bool := false
  RouteDns : Bool := false
  Debug : Bool := false
  SsoAuth : Bool := false
  OtpAuth : Bool := false
  LzoCompression : Bool := false
  Cipher : String := ""
  Hash : String := ""
  BlockOutsideDns : Bool := false
  JumboFrames : Bool := false
  PreConnectMsg : String := ""
  Policy : String := ""
  MssFix : GoAny := GoAny.nil
  Multihome : Bool := false

/-- The Go struct `ServerRequest`; the defaults are the zero values. -/
structure ServerRequest where
  Name : String := ""
  Network : String := ""
  NetworkWg : String := ""
  NetworkMode : String := ""
  NetworkStart : Option String := none
  NetworkEnd : Option String := none
  RestrictRoutes : Bool := false
  Wg : Bool := false
  Ipv6 : Bool := false
  Ipv6Firewall : Bool := false
  DynamicFirewall : Bool := false
  DeviceAuth : Bool := false
  BindAddress : Option String := none
  Protocol : String := ""
  Port : GoInt := GoInt.zero
  PortWg : GoInt := GoInt.zero
  DhParamBits : GoInt := GoInt.zero
  Groups : Slice String := none
  MultiDevice : Bool := false
  DnsServers : Slice String := none
  SearchDomain : String := ""
  InterClient : Bool := false
  PingInterval : GoInt := GoInt.zero
  PingTimeout : GoInt := GoInt.zero
  LinkPingInterval : GoInt := GoInt.zero
  LinkPingTimeout : GoInt := GoInt.zero
  InactiveTimeout : Option GoInt := none
  SessionTimeout : Option GoInt := none
  AllowedDevices : Option String := none
  MaxClients : GoInt := GoInt.zero
  MaxDevices : GoInt := GoInt.zero
  ReplicaCount : GoInt := GoInt.zero
  Vxlan : Bool := false
  DnsMapping : Bool := false
  RouteDns : Bool := false
  Debug : Bool := false
  SsoAuth : Bool := false
  OtpAuth : Bool := false
  LzoCompression : Bool := false
  Cipher : String := ""
  Hash : String := ""
  BlockOutsideDns : Bool := false
  JumboFrames : Bool := false
  PreConnectMsg : String := ""
  Policy : String := ""
  MssFix : GoAny := GoAny.nil
  Multihome : Bool := false

/-- The fields of `ServerResponse`, in declaration order. -/
inductive Field
  | ID
  | Status
  | Uptime
  | UsersOnline
  | DevicesOnline
  | UserCount
  | Name
  | Network
  | NetworkWg
  | NetworkMode
  | NetworkStart
  | NetworkEnd
  | RestrictRoutes
  | Wg
  | Ipv6
  | Ipv6Firewall
  | DynamicFirewall
  | DeviceAuth
  | BindAddress
  | Protocol
  | Port
  | PortWg
  | DhParamBits
  | Groups
  | MultiDevice
  | DnsServers
  | SearchDomain
  | InterClient
  | PingInterval
  | PingTimeout
  | LinkPingInterval
  | LinkPingTimeout
  | InactiveTimeout
  | SessionTimeout
  | AllowedDevices
  | MaxClients
  | MaxDevices
  | ReplicaCount
  | Vxlan
  | DnsMapping
  | RouteDns
  | Debug
  | SsoAuth
  | OtpAuth
  | LzoCompression
  | Cipher
  | Hash
  | BlockOutsideDns
  | JumboFrames
  | PreConnectMsg
  | Policy
  | MssFix
  | Multihome
deriving DecidableEq, Repr

/-- The JSON name in the field tag. -/
def Field.name : Field → String
  | .ID => "id"
  | .Status => "status"
  | .Uptime => "uptime"
  | .UsersOnline => "users_online"
  | .DevicesOnline => "devices_online"
  | .UserCount => "user_count"
  | .Name => "name"
  | .Network => "network"
  | .NetworkWg => "network_wg"
  | .NetworkMode => "network_mode"
  | .NetworkStart => "network_start"
  | .NetworkEnd => "network_end"
  | .RestrictRoutes => "restrict_routes"
  | .Wg => "wg"
  | .Ipv6 => "ipv6"
  | .Ipv6Firewall => "ipv6_firewall"
  | .DynamicFirewall => "dynamic_firewall"
  | .DeviceAuth => "device_auth"
  | .BindAddress => "bind_address"
  | .Protocol => "protocol"
  | .Port => "port"
  | .PortWg => "port_wg"
  | .DhParamBits => "dh_param_bits"
  | .Groups => "groups"
  | .MultiDevice => "multi_device"
  | .DnsServers => "dns_servers"
  | .SearchDomain => "search_domain"
  | .InterClient => "inter_client"
  | .PingInterval => "ping_interval"
  | .PingTimeout => "ping_timeout"
  | .LinkPingInterval => "link_ping_interval"
  | .LinkPingTimeout => "link_ping_timeout"
  | .InactiveTimeout => "inactive_timeout"
  | .SessionTimeout => "session_timeout"
  | .AllowedDevices => "allowed_devices"
  | .MaxClients => "max_clients"
  | .MaxDevices => "max_devices"
  | .ReplicaCount => "replica_count"
  | .Vxlan => "vxlan"
  | .DnsMapping => "dns_mapping"
  | .RouteDns => "route_dns"
  | .Debug => "debug"
  | .SsoAuth => "sso_auth"
  | .OtpAuth => "otp_auth"
  | .LzoCompression => "lzo_compression"
  | .Cipher => "cipher"
  | .Hash => "hash"
  | .BlockOutsideDns => "block_outside_dns"
  | .JumboFrames => "jumbo_frames"
  | .PreConnectMsg => "pre_connect_msg"
  | .Policy => "policy"
  | .MssFix => "mss_fix"
  | .Multihome => "multihome"

/-- The field table of `ServerResponse` (`cachedTypeFields`). -/
def responseFields : List Field :=
  [.ID, .Status, .Uptime, .UsersOnline, .DevicesOnline, .UserCount, .Name, .Network,
   .NetworkWg, .NetworkMode, .NetworkStart, .NetworkEnd, .RestrictRoutes, .Wg, .Ipv6,
   .Ipv6Firewall, .DynamicFirewall, .DeviceAuth, .BindAddress, .Protocol, .Port, .PortWg,
   .DhParamBits, .Groups, .MultiDevice, .DnsServers, .SearchDomain, .InterClient,
   .PingInterval, .PingTimeout, .LinkPingInterval, .LinkPingTimeout, .InactiveTimeout,
   .SessionTimeout, .AllowedDevices, .MaxClients, .MaxDevices, .ReplicaCount, .Vxlan,
   .DnsMapping, .RouteDns, .Debug, .SsoAuth, .OtpAuth, .LzoCompression, .Cipher, .Hash,
   .BlockOutsideDns, .JumboFrames, .PreConnectMsg, .Policy, .MssFix, .Multihome]

/-- The zero value `var singleOrg ServerResponse`. -/
def ServerResponse.zero : ServerResponse := {}

/-! ## `encoding/json`: decoding into `ServerResponse` -/

/-- Case folding of one rune of a key, as far as it can matter against the
ASCII names of the field table: a lower-case ASCII letter goes to upper case,
and so do the two other runes Unicode folds onto an ASCII letter, U+017F (long
s) and U+212A (Kelvin sign). -/
def foldRune (c : Char) : Char :=
  if 97 ≤ c.toNat ∧ c.toNat ≤ 122 then Char.ofNat (c.toNat - 32)
  else if c.toNat = 383 then Char.ofNat 83
  else if c.toNat = 8490 then Char.ofNat 75
  else c

/-- `foldName`: the key with every rune folded. -/
def foldName (key : String) : String := String.mk (key.data.map foldRune)

/-- The field a key selects in `decodeState.object`: the one with exactly this
name, else the one with this name up to case folding; none for an unknown
key. -/
def lookupField (key : String) : Option Field :=
  match responseFields.find? (fun f => decide (f.name = key)) with
  | some f => some f
  | none => responseFields.find? (fun f => decide (foldName f.name = foldName key))

/-- What the spare capacity (the part of the backing array beyond the length)
of the two slice fields of a `ServerResponse` holds while `json.Unmarshal` fills
the struct.  It is empty when decoding starts: the slices of a fresh struct are
nil, and those of a struct the caller supplies are taken to have no spare
capacity. -/
structure Spare where
  Groups : List String := []
  DnsServers : List String := []

/-- Decode a JSON value into one field of a `ServerResponse`, by the field type;
`sp` is what the spare capacity of the two slices holds. -/
def ServerResponse.store (s : ServerResponse) (sp : Spare) (f : Field) (v : JSON) :
    (ServerResponse × Spare) × Option GoError :=
  match f with
  | .ID => let r := decodeString v s.ID; (({ s with ID := r.1 }, sp), r.2)
  | .Status => let r := decodeString v s.Status; (({ s with Status := r.1 }, sp), r.2)
  | .Uptime => let r := decodeUint v s.Uptime; (({ s with Uptime := r.1 }, sp), r.2)
  | .UsersOnline => let r := decodeInt v s.UsersOnline; (({ s with UsersOnline := r.1 }, sp), r.2)
  | .DevicesOnline => let r := decodeInt v s.DevicesOnline; (({ s with DevicesOnline := r.1 }, sp), r.2)
  | .UserCount => let r := decodeInt v s.UserCount; (({ s with UserCount := r.1 }, sp), r.2)
  | .Name => let r := decodeString v s.Name; (({ s with Name := r.1 }, sp), r.2)
  | .Network => let r := decodeString v s.Network; (({ s with Network := r.1 }, sp), r.2)
  | .NetworkWg => let r := decodeString v s.NetworkWg; (({ s with NetworkWg := r.1 }, sp), r.2)
  | .NetworkMode => let r := decodeString v s.NetworkMode; (({ s with NetworkMode := r.1 }, sp), r.2)
  | .NetworkStart => let r := decodePtr decodeString "" v s.NetworkStart; (({ s with NetworkStart := r.1 }, sp), r.2)
  | .NetworkEnd => let r := decodePtr decodeString "" v s.NetworkEnd; (({ s with NetworkEnd := r.1 }, sp), r.2)
  | .RestrictRoutes => let r := decodeBool v s.RestrictRoutes; (({ s with RestrictRoutes := r.1 }, sp), r.2)
  | .Wg => let r := decodeBool v s.Wg; (({ s with Wg := r.1 }, sp), r.2)
  | .Ipv6 => let r := decodeBool v s.Ipv6; (({ s with Ipv6 := r.1 }, sp), r.2)
  | .Ipv6Firewall => let r := decodeBool v s.Ipv6Firewall; (({ s with Ipv6Firewall := r.1 }, sp), r.2)
  | .DynamicFirewall => let r := decodeBool v s.DynamicFirewall; (({ s with DynamicFirewall := r.1 }, sp), r.2)
  | .DeviceAuth => let r := decodeBool v s.DeviceAuth; (({ s with DeviceAuth := r.1 }, sp), r.2)
  | .BindAddress => let r := decodePtr decodeString "" v s.BindAddress; (({ s with BindAddress := r.1 }, sp), r.2)
  | .Protocol => let r := decodeString v s.Protocol; (({ s with Protocol := r.1 }, sp), r.2)
  | .Port => let r := decodeInt v s.Port; (({ s with Port := r.1 }, sp), r.2)
  | .PortWg => let r := decodeInt v s.PortWg; (({ s with PortWg := r.1 }, sp), r.2)
  | .DhParamBits => let r := decodeInt v s.DhParamBits; (({ s with DhParamBits := r.1 }, sp), r.2)
  | .Groups =>
    let r := decodeSlice decodeString "" "[]string" v s.Groups sp.Groups
    (({ s with Groups := r.1.1 }, { sp with Groups := r.1.2 }), r.2)
  | .MultiDevice => let r := decodeBool v s.MultiDevice; (({ s with MultiDevice := r.1 }, sp), r.2)
  | .DnsServers =>
    let r := decodeSlice decodeString "" "[]string" v s.DnsServers sp.DnsServers
    (({ s with DnsServers := r.1.1 }, { sp with DnsServers := r.1.2 }), r.2)
  | .SearchDomain => let r := decodeString v s.SearchDomain; (({ s with SearchDomain := r.1 }, sp), r.2)
  | .InterClient => let r := decodeBool v s.InterClient; (({ s with InterClient := r.1 }, sp), r.2)
  | .PingInterval => let r := decodeInt v s.PingInterval; (({ s with PingInterval := r.1 }, sp), r.2)
  | .PingTimeout => let r := decodeInt v s.PingTimeout; (({ s with PingTimeout := r.1 }, sp), r.2)
  | .LinkPingInterval => let r := decodeInt v s.LinkPingInterval; (({ s with LinkPingInterval := r.1 }, sp), r.2)
  | .LinkPingTimeout => let r := decodeInt v s.LinkPingTimeout; (({ s with LinkPingTimeout := r.1 }, sp), r.2)
  | .InactiveTimeout => let r := decodePtr decodeInt GoInt.zero v s.InactiveTimeout; (({ s with InactiveTimeout := r.1 }, sp), r.2)
  | .SessionTimeout => let r := decodePtr decodeInt GoInt.zero v s.SessionTimeout; (({ s with SessionTimeout := r.1 }, sp), r.2)
  | .AllowedDevices => let r := decodePtr decodeString "" v s.AllowedDevices; (({ s with AllowedDevices := r.1 }, sp), r.2)
  | .MaxClients => let r := decodeInt v s.MaxClients; (({ s with MaxClients := r.1 }, sp), r.2)
  | .MaxDevices => let r := decodeInt v s.MaxDevices; (({ s with MaxDevices := r.1 }, sp), r.2)
  | .ReplicaCount => let r := decodeInt v s.ReplicaCount; (({ s with ReplicaCount := r.1 }, sp), r.2)
  | .Vxlan => let r := decodeBool v s.Vxlan; (({ s with Vxlan := r.1 }, sp), r.2)
  | .DnsMapping => let r := decodeBool v s.DnsMapping; (({ s with DnsMapping := r.1 }, sp), r.2)
  | .RouteDns => let r := decodeBool v s.RouteDns; (({ s with RouteDns := r.1 }, sp), r.2)
  | .Debug => let r := decodeBool v s.Debug; (({ s with Debug := r.1 }, sp), r.2)
  | .SsoAuth => let r := decodeBool v s.SsoAuth; (({ s with SsoAuth := r.1 }, sp), r.2)
  | .OtpAuth => let r := decodeBool v s.OtpAuth; (({ s with OtpAuth := r.1 }, sp), r.2)
  | .LzoCompression => let r := decodeBool v s.LzoCompression; (({ s with LzoCompression := r.1 }, sp), r.2)
  | .Cipher => let r := decodeString v s.Cipher; (({ s with Cipher := r.1 }, sp), r.2)
  | .Hash => let r := decodeString v s.Hash; (({ s with Hash := r.1 }, sp), r.2)
  | .BlockOutsideDns => let r := decodeBool v s.BlockOutsideDns; (({ s with BlockOutsideDns := r.1 }, sp), r.2)
  | .JumboFrames => let r := decodeBool v s.JumboFrames; (({ s with JumboFrames := r.1 }, sp), r.2)
  | .PreConnectMsg => let r := decodeString v s.PreConnectMsg; (({ s with PreConnectMsg := r.1 }, sp), r.2)
  | .Policy => let r := decodeString v s.Policy; (({ s with Policy := r.1 }, sp), r.2)
  | .MssFix => let r := decodeInterface v s.MssFix; (({ s with MssFix := r.1 }, sp), r.2)
  | .Multihome => let r := decodeBool v s.Multihome; (({ s with Multihome := r.1 }, sp), r.2)

/-- The member loop of `decodeState.object` on a struct, on the decoder state
(the struct, the spare capacity of its slices, the saved error): members are
taken in order, each decoded into the field its key selects on top of what is
already there; the value of an unknown key is skipped; only the first error is
kept (`saveError`). -/
def decodeMembers : List (String × JSON) → (ServerResponse × Spare) × Option GoError →
    (ServerResponse × Spare) × Option GoError
  | [], st => st
  | (key, v) :: rest, st =>
    match lookupField key with
    | none => decodeMembers rest st
    | some f => decodeMembers rest ((st.1.1.store st.1.2 f v).1, st.2 <|> (st.1.1.store st.1.2 f v).2)

/-- Decode a JSON value into a `ServerResponse`: null is ignored, an object is
decoded member by member, anything else is a type error. -/
def decodeServer (v : JSON) (old : ServerResponse) : ServerResponse × Option GoError :=
  match v with
  | .null => (old, none)
  | .obj members =>
    ((decodeMembers members ((old, {}), none)).1.1, (decodeMembers members ((old, {}), none)).2)
  | other => (old, some (.unmarshalType other.kindName "pritunl.ServerResponse"))

/-- `json.Unmarshal(data, &single)` for `single ServerResponse`. -/
def UnmarshalServer (data : Bytes) (single : ServerResponse) :
    ServerResponse × Option GoError :=
  match data with
  | .malformed msg => (single, some (.invalidJSON msg))
  | .json v => decodeServer v single

/-- `json.Unmarshal(data, servers)` for `servers *[]ServerResponse`; the slice
the caller supplies is taken to have no spare capacity. -/
def UnmarshalServers (data : Bytes) (servers : Slice ServerResponse) :
    Slice ServerResponse × Option GoError :=
  match data with
  | .malformed msg => (servers, some (.invalidJSON msg))
  | .json v =>
    ((decodeSlice decodeServer ServerResponse.zero "[]pritunl.ServerResponse" v servers []).1.1,
      (decodeSlice decodeServer ServerResponse.zero "[]pritunl.ServerResponse" v servers []).2)

/-! ## `encoding/json`: encoding a `ServerRequest` -/

/-- An `int` as a JSON number. -/
def intJSON (i : GoInt) : JSON := .num ⟨decide (i.val < 0), i.val.natAbs, none, none⟩

/-- A `[]string` as JSON: the nil slice is null. -/
def stringsJSON (s : Slice String) : JSON :=
  match s with
  | none => .null
  | some xs => .arr (xs.map JSON.str)

/-- A struct member tagged `omitempty` whose Go value is a pointer: left out
when the pointer is nil. -/
def omitempty (key : String) (v : Option JSON) : List (String × JSON) :=
  match v with
  | none => []
  | some j => [(key, j)]

/-- Division steps by ten until the number is below 10, at most `fuel`. -/
def log10Aux : Nat → Nat → Nat
  | 0, _ => 0
  | fuel + 1, n => if 10 ≤ n then log10Aux fuel (n / 10) + 1 else 0

/-- The position of the leading decimal digit of a positive number. -/
def floorLog10 (n : Nat) : Nat := log10Aux n n

/-- The decimal digits of `n` in front of `acc`, most significant first. -/
def digitsAux : Nat → Nat → List (Fin 10) → List (Fin 10)
  | 0, _, acc => acc
  | fuel + 1, n, acc =>
    if n = 0 then acc else digitsAux fuel (n / 10) (⟨n % 10, Nat.mod_lt _ (by decide)⟩ :: acc)

/-- The decimal digits of a number, most significant first (none for 0). -/
def decimalDigits (n : Nat) : List (Fin 10) := digitsAux n n []

/-- The fraction `c * 10 ^ p` as numerator and denominator. -/
def scaled (c : Nat) (p : Int) : Nat × Nat :=
  if 0 ≤ p then (c * 10 ^ p.toNat, 1) else (c, 10 ^ (-p).toNat)

/-- Search for the shortest decimal `c * 10 ^ p` that reads back as the float64
`f`, of value `a / b` and with leading decimal digit at position `k`, trying
`n`, `n + 1`, ... digits: with `n` digits the candidates are the two decimals
next to the value, and of two that qualify the nearer one is taken. -/
def shortestAux (f : F64) (a b : Nat) (k : Int) : Nat → Nat → Nat × Int
  | 0, n => ((scaled a (-(k - (n : Int) + 1))).1 / ((scaled a (-(k - (n : Int) + 1))).2 * b),
      k - (n : Int) + 1)
  | fuel + 1, n =>
    let p : Int := k - (n : Int) + 1
    let num := (scaled a (-p)).1
    let den := (scaled a (-p)).2 * b
    let c0 := num / den
    let r := num % den
    let ok0 := decide (roundToF64 f.neg (scaled c0 p).1 (scaled c0 p).2 = some f)
    let ok1 := decide (roundToF64 f.neg (scaled (c0 + 1) p).1 (scaled (c0 + 1) p).2 = some f)
    let up := decide (den < 2 * r) || (decide (2 * r = den) && decide (c0 % 2 = 1))
    if ok0 && ok1 then (if up then (c0 + 1, p) else (c0, p))
    else if ok0 then (c0, p)
    else if ok1 then (c0 + 1, p)
    else shortestAux f a b k fuel (n + 1)

/-- Drop the trailing zeros of the digits `c`, raising the exponent `p`. -/
def stripZeros : Nat → Nat → Int → Nat × Int
  | 0, c, p => (c, p)
  | fuel + 1, c, p => if c ≠ 0 ∧ c % 10 = 0 then stripZeros fuel (c / 10) (p + 1) else (c, p)

/-- The number token `json.Marshal` writes for a finite float64: the shortest
decimal that reads back as the same float64, in positional form, or with an
exponent when the magnitude is below `1e-6` or at least `1e21`. -/
def F64.format (f : F64) : JNumber :=
  if f.mant = 0 then ⟨f.neg, 0, none, none⟩
  else
    let a := if 0 ≤ f.exp then f.mant * 2 ^ f.exp.toNat else f.mant
    let b := if 0 ≤ f.exp then 1 else 2 ^ (-f.exp).toNat
    let k0 : Int := (floorLog10 a : Int) - (floorLog10 b : Int)
    let k : Int := if (scaled 1 k0).1 * b ≤ a * (scaled 1 k0).2 then k0 else k0 - 1
    let cp := shortestAux f a b k 17 1
    let cp := stripZeros 20 cp.1 cp.2
    let ds := decimalDigits cp.1
    let dp : Int := cp.2 + (ds.length : Int)
    if dp - 1 < -6 ∨ 21 ≤ dp - 1 then
      ⟨f.neg, (ds.headD 0).val, if ds.tail.isEmpty then none else some ds.tail, some (dp - 1)⟩
    else if dp ≤ 0 then
      ⟨f.neg, 0, some (List.replicate (-dp).toNat 0 ++ ds), none⟩
    else if (ds.length : Int) ≤ dp then
      ⟨f.neg, cp.1 * 10 ^ cp.2.toNat, none, none⟩
    else
      ⟨f.neg, cp.1 / 10 ^ (-cp.2).toNat, some (ds.drop dp.toNat), none⟩

/-- Insert a map entry before the first entry with a larger key. -/
def insertByKey {α : Type} (kv : String × α) : List (String × α) → List (String × α)
  | [] => [kv]
  | x :: xs => if kv.1 < x.1 then kv :: x :: xs else x :: insertByKey kv xs

/-- Map entries sorted by key, the order in which `json.Marshal` writes them. -/
def sortByKey {α : Type} : List (String × α) → List (String × α)
  | [] => []
  | kv :: rest => insertByKey kv (sortByKey rest)

/-- The first failure among encoded members, else all of them. -/
def collectMembers : List (String × Except GoError JSON) → Except GoError (List (String × JSON))
  | [] => .ok []
  | (k, r) :: rest =>
    match r with
    | .error err => .error err
    | .ok j =>
      match collectMembers rest with
      | .error err => .error err
      | .ok js => .ok ((k, j) :: js)

mutual
/-- `json.Marshal` of the dynamic value of an `interface{}`. -/
def marshalAny : GoAny → Except GoError JSON
  | .nil => .ok .null
  | .bool b => .ok (.bool b)
  | .int i => .ok (intJSON i)
  | .float64 f => .ok (.num f.format)
  | .string s => .ok (.str s)
  | .slice xs =>
    match marshalAnyElems xs with
    | .error err => .error err
    | .ok js => .ok (.arr js)
  | .map m =>
    match collectMembers (sortByKey (marshalAnyMembers m)) with
    | .error err => .error err
    | .ok js => .ok (.obj js)
  | .other enc => enc
/-- Elements of a `[]interface{}`, in order. -/
def marshalAnyElems : List GoAny → Except GoError (List JSON)
  | [] => .ok []
  | x :: xs =>
    match marshalAny x with
    | .error err => .error err
    | .ok j =>
      match marshalAnyElems xs with
      | .error err => .error err
      | .ok js => .ok (j :: js)
/-- Entries of a `map[string]interface{}`, each value encoded. -/
def marshalAnyMembers : List (String × GoAny) → List (String × Except GoError JSON)
  | [] => []
  | (k, v) :: rest => (k, marshalAny v) :: marshalAnyMembers rest
end

/-- The members `json.Marshal` writes for a `ServerRequest`, given the encoding
of `MssFix`: the fields in declaration order; a nil `omitempty` pointer is left
out, a nil slice is written as null. -/
def ServerRequest.members (r : ServerRequest) (mssFix : JSON) : List (String × JSON) :=
  [("name", .str r.Name),
   ("network", .str r.Network),
   ("network_wg", .str r.NetworkWg),
   ("network_mode", .str r.NetworkMode)] ++
  omitempty "network_start" (r.NetworkStart.map JSON.str) ++
  omitempty "network_end" (r.NetworkEnd.map JSON.str) ++
  [("restrict_routes", .bool r.RestrictRoutes),
   ("wg", .bool r.Wg),
   ("ipv6", .bool r.Ipv6),
   ("ipv6_firewall", .bool r.Ipv6Firewall),
   ("dynamic_firewall", .bool r.DynamicFirewall),
   ("device_auth", .bool r.DeviceAuth)] ++
  omitempty "bind_address" (r.BindAddress.map JSON.str) ++
  [("protocol", .str r.Protocol),
   ("port", intJSON r.Port),
   ("port_wg", intJSON r.PortWg),
   ("dh_param_bits", intJSON r.DhParamBits),
   ("groups", stringsJSON r.Groups),
   ("multi_device", .bool r.MultiDevice),
   ("dns_servers", stringsJSON r.DnsServers),
   ("search_domain", .str r.SearchDomain),
   ("inter_client", .bool r.InterClient),
   ("ping_interval", intJSON r.PingInterval),
   ("ping_timeout", intJSON r.PingTimeout),
   ("link_ping_interval", intJSON r.LinkPingInterval),
   ("link_ping_timeout", intJSON r.LinkPingTimeout)] ++
  omitempty "inactive_timeout" (r.InactiveTimeout.map intJSON) ++
  omitempty "session_timeout" (r.SessionTimeout.map intJSON) ++
  omitempty "allowed_devices" (r.AllowedDevices.map JSON.str) ++
  [("max_clients", intJSON r.MaxClients),
   ("max_devices", intJSON r.MaxDevices),
   ("replica_count", intJSON r.ReplicaCount),
   ("vxlan", .bool r.Vxlan),
   ("dns_mapping", .bool r.DnsMapping),
   ("route_dns", .bool r.RouteDns),
   ("debug", .bool r.Debug),
   ("sso_auth", .bool r.SsoAuth),
   ("otp_auth", .bool r.OtpAuth),
   ("lzo_compression", .bool r.LzoCompression),
   ("cipher", .str r.Cipher),
   ("hash", .str r.Hash),
   ("block_outside_dns", .bool r.BlockOutsideDns),
   ("jumbo_frames", .bool r.JumboFrames),
   ("pre_connect_msg", .str r.PreConnectMsg),
   ("policy", .str r.Policy),
   ("mss_fix", mssFix),
   ("multihome", .bool r.Multihome)]

/-- `json.Marshal(newServer)`: the only field that can make it fail is
`MssFix`, whose dynamic value may be one that `json.Marshal` rejects. -/
def ServerRequest.Marshal (r : ServerRequest) : Except GoError JSON :=
  match marshalAny r.MssFix with
  | .error err => .error err
  | .ok mssFix => .ok (.obj (r.members mssFix))

/-! ## `server.go` -/

/-- An `io.Reader` over a response body: what `io.ReadAll` returns. -/
structure Reader where
  ReadAll : Except GoError Bytes

/-- What an operation does, in order. -/
inductive Event
  /-- a call `c.AuthRequest(ctx, method, path, data)` -/
  | authRequest (method : String) (path : String) (data : Option Bytes)
  /-- a call `handleResponse(response)` -/
  | handleResponse
  /-- a call `handleUnmarshalServers(body, &servers)` -/
  | unmarshal
  /-- the deferred `body.Close()` -/
  | close

/-- The collaborators of `server.go`, defined elsewhere in the library: the
authenticated request sender and the response body extractor. -/
structure Client (Response : Type) where
  AuthRequest : String → String → Option Bytes → Except GoError Response
  handleResponse : Response → Except GoError Reader

/-- The results `([]ServerResponse, error)` of an operation, with its trace. -/
structure Outcome where
  trace : List Event
  servers : Slice ServerResponse
  err : Option GoError

/-- The requests in a trace. -/
def requestsOf : List Event → List (String × String × Option Bytes)
  | [] => []
  | .authRequest m p d :: rest => (m, p, d) :: requestsOf rest
  | _ :: rest => requestsOf rest

/-- The function `handleUnmarshalServers(body, servers)`: returns the new
contents of `*servers` and the error. -/
def handleUnmarshalServers (body : Reader) (servers : Slice ServerResponse) :
    Slice ServerResponse × Option GoError :=
  match body.ReadAll with
  | .error err => (servers, some (.wrap "failed to read response body" err))
  | .ok bodyBytes =>
    -- Attempt to unmarshal the entire response into a slice of ServerResponse
    match UnmarshalServers bodyBytes servers with
    | (servers1, none) => (servers1, none)
    | (servers1, some err) =>
      -- If unmarshalling as a list fails, try unmarshalling as a single ServerResponse
      match UnmarshalServer bodyBytes ServerResponse.zero with
      | (singleOrg, none) => (Slice.append servers1 singleOrg, none)
      | (_, some _) => (servers1, some (.wrap "failed to unmarshal server response" err))

/-- The method `ServerGet(ctx, srvId...)`. -/
def ServerGet {Response : Type} (c : Client Response) (srvId : List String) : Outcome :=
  let serverData : Option Bytes := none
  let path :=
    match srvId with
    | [] => "/server"
    | first :: _ => "/server" ++ "/" ++ first
  let t1 := [Event.authRequest "GET" path serverData]
  match c.AuthRequest "GET" path serverData with
  | .error err => ⟨t1, none, some err⟩
  | .ok response =>
    match c.handleResponse response with
    | .error err => ⟨t1 ++ [.handleResponse], none, some err⟩
    | .ok body =>
      match handleUnmarshalServers body none with
      | (_, some err) => ⟨t1 ++ [.handleResponse, .unmarshal, .close], none, some err⟩
      | (servers, none) => ⟨t1 ++ [.handleResponse, .unmarshal, .close], servers, none⟩

/-- The method `ServerCreate(ctx, newServer)`. -/
def ServerCreate {Response : Type} (c : Client Response) (newServer : ServerRequest) :
    Outcome :=
  match newServer.Marshal with
  | .error err => ⟨[], none, some (.wrap "failed to marshal server data" err)⟩
  | .ok serverData =>
    let path := "/server"
    let t1 := [Event.authRequest "POST" path (some (.json serverData))]
    match c.AuthRequest "POST" path (some (.json serverData)) with
    | .error err => ⟨t1, none, some err⟩
    | .ok response =>
      match c.handleResponse response with
      | .error err => ⟨t1 ++ [.handleResponse], none, some err⟩
      | .ok body =>
        match handleUnmarshalServers body none with
        | (_, some err) => ⟨t1 ++ [.handleResponse, .unmarshal, .close], none, some err⟩
        | (servers, none) => ⟨t1 ++ [.handleResponse, .unmarshal, .close], servers, none⟩

/-- The method `ServerUpdate(ctx, srvId, newServer)`. -/
def ServerUpdate {Response : Type} (c : Client Response) (srvId : String)
    (newServer : ServerRequest) : Outcome :=
  match newServer.Marshal with
  | .error err => ⟨[], none, some (.wrap "failed to marshal server data" err)⟩
  | .ok serverData =>
    let path := "/server/" ++ srvId
    let t1 := [Event.authRequest "PUT" path (some (.json serverData))]
    match c.AuthRequest "PUT" path (some (.json serverData)) with
    | .error err => ⟨t1, none, some err⟩
    | .ok response =>
      match c.handleResponse response with
      | .error err => ⟨t1 ++ [.handleResponse], none, some err⟩
      | .ok body =>
        match handleUnmarshalServers body none with
        | (_, some err) => ⟨t1 ++ [.handleResponse, .unmarshal, .close], none, some err⟩
        | (servers, none) => ⟨t1 ++ [.handleResponse, .unmarshal, .close], servers, none⟩

/-! ## Vocabulary of the statements -/

/-- Direct parse of a JSON value as one `ServerResponse`: `json.Unmarshal` of it
into a fresh variable. -/
def directParse (v : JSON) : ServerResponse × Option GoError :=
  UnmarshalServer (.json v) ServerResponse.zero

/-- The direct parse reports no error. -/
def parsesAsServer (v : JSON) : Bool := (directParse v).2.isNone

/-- The body is a JSON array each element of which parses as a
`ServerResponse`. -/
def isServerArray : Bytes → Bool
  | .json (.arr elems) => elems.all parsesAsServer
  | _ => false

/-- The body is a JSON object that parses as a `ServerResponse`. -/
def isServerObject : Bytes → Bool
  | .json (.obj members) => parsesAsServer (.obj members)
  | _ => false

/-- A reader that delivers the given bytes. -/
def Reader.of (b : Bytes) : Reader := ⟨.ok b⟩

/-- The client answers the request with a response whose body can be
extracted, and `body` is that body. -/
def Client.Delivers {Response : Type} (c : Client Response) (method path : String)
    (data : Option Bytes) (body : Reader) : Prop :=
  ∃ response, c.AuthRequest method path data = .ok response ∧
    c.handleResponse response = .ok body

/-- The path of the request `ServerGet` makes: the collection, or the resource
named by the first identifier. -/
def getPath : List String → String
  | [] => "/server"
  | first :: _ => "/server/" ++ first

/-- What an operation returns after `handleUnmarshalServers`: the sequence with
a nil error, or nil with the error. -/
def returned (r : Slice ServerResponse × Option GoError) :
    Slice ServerResponse × Option GoError :=
  match r with
  | (_, some err) => (none, some err)
  | (servers, none) => (servers, none)

/-- The part the three operations have in common: send the request, extract
the body, decode it, close it. -/
def exchange {Response : Type} (c : Client Response) (method path : String)
    (data : Option Bytes) : Outcome :=
  match c.AuthRequest method path data with
  | .error err => ⟨[.authRequest method path data], none, some err⟩
  | .ok response =>
    match c.handleResponse response with
    | .error err => ⟨[.authRequest method path data, .handleResponse], none, some err⟩
    | .ok body =>
      ⟨[.authRequest method path data, .handleResponse, .unmarshal, .close],
        (returned (handleUnmarshalServers body none)).1,
        (returned (handleUnmarshalServers body none)).2⟩

/-- The keys of the members of an object. -/
def keysOf (members : List (String × JSON)) : List String := members.map Prod.fst

/-- A sample request: the server `vpn1` with an MSS fix of 1400 and empty,
non-nil group and DNS server lists. -/
def sampleRequest : ServerRequest :=
  { Name := "vpn1"
    Groups := some []
    DnsServers := some []
    MssFix := .int ⟨1400, by decide⟩ }

/-- A sample request whose `MssFix` is a channel. -/
def channelRequest : ServerRequest :=
  { Name := "vpn1"
    MssFix := .other (.error (.unsupportedValue "json: unsupported type: chan int")) }

/-- A client that answers every request with the same body. -/
def Client.answering (body : Reader) : Client Unit :=
  ⟨fun _ _ _ => .ok (), fun _ => .ok body⟩

/-- A client whose transport fails with the given error. -/
def Client.failing (e : GoError) : Client Unit :=
  ⟨fun _ _ _ => .error e, fun _ => .error e⟩

/-- A client whose transport succeeds and whose body extraction fails. -/
def Client.rejecting (e : GoError) : Client Unit :=
  ⟨fun _ _ _ => .ok (), fun _ => .error e⟩

/-- How many times a trace calls `handleUnmarshalServers`. -/
def unmarshalCount : List Event → Nat
  | [] => 0
  | .unmarshal :: rest => unmarshalCount rest + 1
  | _ :: rest => unmarshalCount rest

/-! ## Lemmas on decoding -/

theorem decodeElems_fresh (elems : List JSON)
    (h : ∀ e ∈ elems, (directParse e).2 = none) :
    decodeElems decodeServer ServerResponse.zero elems [] =
      (elems.map (fun e => (directParse e).1), none) := by
  induction elems with
  | nil => rfl
  | cons e es ih =>
    have he : (decodeServer e ServerResponse.zero).2 = none := h e (List.mem_cons_self e es)
    have hes := ih (fun x hx => h x (List.mem_cons_of_mem e hx))
    simp only [decodeElems, List.headD_nil, List.tail_nil, hes, he, List.map_cons]
    rfl

theorem UnmarshalServers_arr (elems : List JSON) (servers : Slice ServerResponse) :
    UnmarshalServers (.json (.arr elems)) servers =
      (some (decodeElems decodeServer ServerResponse.zero elems (servers.getD [])).1,
        (decodeElems decodeServer ServerResponse.zero elems (servers.getD [])).2) := by
  simp only [UnmarshalServers, decodeSlice, List.append_nil]

theorem handleUnmarshalServers_arr (elems : List JSON) (servers : Slice ServerResponse)
    (hempty : servers = none ∨ servers = some [])
    (h : ∀ e ∈ elems, (directParse e).2 = none) :
    handleUnmarshalServers (Reader.of (.json (.arr elems))) servers =
      (some (elems.map (fun e => (directParse e).1)), none) := by
  have hd : servers.getD [] = [] := by
    rcases hempty with h0 | h0 <;> simp [h0]
  simp only [handleUnmarshalServers, Reader.of, UnmarshalServers_arr, hd,
    decodeElems_fresh elems h]

theorem handleUnmarshalServers_obj (members : List (String × JSON))
    (servers : Slice ServerResponse) (hempty : servers = none ∨ servers = some [])
    (h : (directParse (.obj members)).2 = none) :
    handleUnmarshalServers (Reader.of (.json (.obj members))) servers =
      (some [(directParse (.obj members)).1], none) := by
  have hd : servers.getD [] = [] := by
    rcases hempty with h0 | h0 <;> simp [h0]
  have h2 : UnmarshalServer (.json (.obj members)) ServerResponse.zero =
      ((directParse (.obj members)).1, none) := by
    rw [← h]; rfl
  simp only [handleUnmarshalServers, Reader.of, UnmarshalServers, decodeSlice, h2,
    Slice.append, hd, List.nil_append]

theorem handleUnmarshalServers_both_fail (bodyBytes : Bytes) (servers servers1 : Slice ServerResponse)
    (arrayErr : GoError) (h1 : UnmarshalServers bodyBytes servers = (servers1, some arrayErr))
    (h2 : (UnmarshalServer bodyBytes ServerResponse.zero).2 ≠ none) :
    handleUnmarshalServers (Reader.of bodyBytes) servers =
      (servers1, some (.wrap "failed to unmarshal server response" arrayErr)) := by
  simp only [handleUnmarshalServers, Reader.of, h1]
  cases hs : UnmarshalServer bodyBytes ServerResponse.zero with
  | mk single e =>
    cases e with
    | none => rw [hs] at h2; exact absurd rfl h2
    | some e2 => rfl

theorem decodeElems_error_none (elems : List JSON) :
    (decodeElems decodeServer ServerResponse.zero elems []).2 = none ↔
      ∀ e ∈ elems, (directParse e).2 = none := by
  constructor
  · intro h
    induction elems with
    | nil => intro e he; exact absurd he (List.not_mem_nil e)
    | cons x xs ih =>
      simp only [decodeElems, List.headD_nil, List.tail_nil] at h
      have hx : (decodeServer x ServerResponse.zero).2 = none := by
        cases hd : (decodeServer x ServerResponse.zero).2 with
        | none => rfl
        | some e0 => rw [hd] at h; exact absurd h (by simp)
      rw [hx] at h
      have hxs : (decodeElems decodeServer ServerResponse.zero xs []).2 = none := by
        simpa using h
      intro e he
      rcases List.mem_cons.mp he with rfl | he
      · exact hx
      · exact ih hxs e he
  · intro h
    rw [decodeElems_fresh elems h]

theorem getPath_cons (first : String) (rest : List String) :
    "/server" ++ "/" ++ first = getPath (first :: rest) := by
  show "/server" ++ "/" ++ first = "/server/" ++ first
  rw [String.append_assoc]
  rfl

theorem ServerGet_delivered {Response : Type} (c : Client Response) (srvId : List String)
    (body : Reader) (h : c.Delivers "GET" (getPath srvId) none body) :
    ((ServerGet c srvId).servers, (ServerGet c srvId).err)
      = returned (handleUnmarshalServers body none) := by
  obtain ⟨response, h1, h2⟩ := h
  cases hr : handleUnmarshalServers body none with
  | mk servers e =>
    cases srvId with
    | nil =>
      simp only [getPath] at h1
      cases e <;> simp only [ServerGet, h1, h2, hr, returned]
    | cons first rest =>
      rw [← getPath_cons] at h1
      cases e <;> simp only [ServerGet, h1, h2, hr, returned]

theorem ServerCreate_delivered {Response : Type} (c : Client Response)
    (newServer : ServerRequest) (serverData : JSON) (body : Reader)
    (hm : newServer.Marshal = .ok serverData)
    (h : c.Delivers "POST" "/server" (some (.json serverData)) body) :
    ((ServerCreate c newServer).servers, (ServerCreate c newServer).err)
      = returned (handleUnmarshalServers body none) := by
  obtain ⟨response, h1, h2⟩ := h
  cases hr : handleUnmarshalServers body none with
  | mk servers e =>
    cases e <;> simp only [ServerCreate, hm, h1, h2, hr, returned]

theorem ServerUpdate_delivered {Response : Type} (c : Client Response) (srvId : String)
    (newServer : ServerRequest) (serverData : JSON) (body : Reader)
    (hm : newServer.Marshal = .ok serverData)
    (h : c.Delivers "PUT" ("/server/" ++ srvId) (some (.json serverData)) body) :
    ((ServerUpdate c srvId newServer).servers, (ServerUpdate c srvId newServer).err)
      = returned (handleUnmarshalServers body none) := by
  obtain ⟨response, h1, h2⟩ := h
  cases hr : handleUnmarshalServers body none with
  | mk servers e =>
    cases e <;> simp only [ServerUpdate, hm, h1, h2, hr, returned]

theorem ServerGet_eq_exchange {Response : Type} (c : Client Response)
    (srvId : List String) : ServerGet c srvId = exchange c "GET" (getPath srvId) none := by
  cases srvId with
  | nil =>
    simp only [ServerGet, exchange, getPath, List.singleton_append, List.nil_append]
    cases c.AuthRequest "GET" "/server" none with
    | error err => rfl
    | ok response =>
      dsimp only
      cases c.handleResponse response with
      | error err => rfl
      | ok body =>
        dsimp only
        cases hr : handleUnmarshalServers body none with
        | mk servers e => cases e <;> rfl
  | cons first rest =>
    simp only [ServerGet, exchange, getPath_cons first rest, List.singleton_append,
      List.nil_append]
    cases c.AuthRequest "GET" (getPath (first :: rest)) none with
    | error err => rfl
    | ok response =>
      dsimp only
      cases c.handleResponse response with
      | error err => rfl
      | ok body =>
        dsimp only
        cases hr : handleUnmarshalServers body none with
        | mk servers e => cases e <;> rfl

theorem ServerCreate_eq_exchange {Response : Type} (c : Client Response)
    (newServer : ServerRequest) (serverData : JSON) (hm : newServer.Marshal = .ok serverData) :
    ServerCreate c newServer = exchange c "POST" "/server" (some (.json serverData)) := by
  simp only [ServerCreate, hm, exchange, List.singleton_append, List.nil_append]
  cases c.AuthRequest "POST" "/server" (some (.json serverData)) with
  | error err => rfl
  | ok response =>
    dsimp only
    cases c.handleResponse response with
    | error err => rfl
    | ok body =>
      dsimp only
      cases hr : handleUnmarshalServers body none with
      | mk servers e => cases e <;> rfl

theorem ServerUpdate_eq_exchange {Response : Type} (c : Client Response) (srvId : String)
    (newServer : ServerRequest) (serverData : JSON) (hm : newServer.Marshal = .ok serverData) :
    ServerUpdate c srvId newServer
      = exchange c "PUT" ("/server/" ++ srvId) (some (.json serverData)) := by
  simp only [ServerUpdate, hm, exchange, List.singleton_append, List.nil_append]
  cases c.AuthRequest "PUT" ("/server/" ++ srvId) (some (.json serverData)) with
  | error err => rfl
  | ok response =>
    dsimp only
    cases c.handleResponse response with
    | error err => rfl
    | ok body =>
      dsimp only
      cases hr : handleUnmarshalServers body none with
      | mk servers e => cases e <;> rfl

theorem exchange_requests {Response : Type} (c : Client Response) (method path : String)
    (data : Option Bytes) : requestsOf (exchange c method path data).trace
      = [(method, path, data)] := by
  simp only [exchange]
  cases c.AuthRequest method path data with
  | error err => rfl
  | ok response =>
    dsimp only
    cases c.handleResponse response with
    | error err => rfl
    | ok body => rfl

theorem handleUnmarshalServers_nil_nil (body : Reader)
    (h : handleUnmarshalServers body none = (none, none)) :
    body.ReadAll = .ok (.json .null) := by
  unfold handleUnmarshalServers at h
  cases hb : body.ReadAll with
  | error err => rw [hb] at h; simp at h
  | ok bodyBytes =>
    rw [hb] at h
    cases bodyBytes with
    | malformed msg => simp [UnmarshalServers, UnmarshalServer] at h
    | json v =>
      cases v with
      | null => rfl
      | bool b => simp [UnmarshalServers, UnmarshalServer, decodeSlice, decodeServer] at h
      | num n => simp [UnmarshalServers, UnmarshalServer, decodeSlice, decodeServer] at h
      | str x => simp [UnmarshalServers, UnmarshalServer, decodeSlice, decodeServer] at h
      | arr elems =>
        simp only [UnmarshalServers_arr, UnmarshalServer, decodeServer] at h
        cases he : (decodeElems decodeServer ServerResponse.zero elems
            (Option.getD none [])).2 with
        | none => rw [he] at h; simp at h
        | some e0 => rw [he] at h; simp at h
      | obj members =>
        simp only [UnmarshalServers, UnmarshalServer, decodeSlice, decodeServer] at h
        cases hd : (decodeMembers members ((ServerResponse.zero, {}), none)).2 with
        | none => rw [hd] at h; simp [Slice.append] at h
        | some e0 => rw [hd] at h; simp at h

theorem handleUnmarshalServers_null (body : Reader) (servers : Slice ServerResponse)
    (h : body.ReadAll = .ok (.json .null)) :
    handleUnmarshalServers body servers = (none, none) := by
  simp only [handleUnmarshalServers, h, UnmarshalServers, decodeSlice]

theorem exchange_null {Response : Type} (c : Client Response) (method path : String)
    (data : Option Bytes) (body : Reader) (hd : c.Delivers method path data body)
    (h : body.ReadAll = .ok (.json .null)) :
    (exchange c method path data).servers = none ∧ (exchange c method path data).err = none := by
  obtain ⟨response, h1, h2⟩ := hd
  unfold exchange
  rw [h1]
  dsimp only
  rw [h2]
  dsimp only
  rw [handleUnmarshalServers_null body none h]
  exact ⟨rfl, rfl⟩

theorem exchange_results {Response : Type} (c : Client Response) (method path : String)
    (data : Option Bytes) :
    ((exchange c method path data).servers = none ∨
      (exchange c method path data).err = none) ∧
    ((exchange c method path data).servers = none →
      (exchange c method path data).err = none →
      ∃ body, c.Delivers method path data body ∧ body.ReadAll = .ok (.json .null)) := by
  simp only [exchange]
  cases h1 : c.AuthRequest method path data with
  | error err => exact ⟨Or.inl rfl, fun _ h => absurd h (by simp)⟩
  | ok response =>
    dsimp only
    cases h2 : c.handleResponse response with
    | error err => exact ⟨Or.inl rfl, fun _ h => absurd h (by simp)⟩
    | ok body =>
      dsimp only
      cases hr : handleUnmarshalServers body none with
      | mk servers e =>
        cases e with
        | some e0 => exact ⟨Or.inl rfl, fun _ h => absurd h (by simp [returned])⟩
        | none =>
          refine ⟨Or.inr rfl, fun hs _ => ⟨body, ⟨response, h1, h2⟩, ?_⟩⟩
          simp only [returned] at hs
          subst hs
          exact handleUnmarshalServers_nil_nil body hr

/-! ## Lemmas on encoding -/

theorem Marshal_ok (r : ServerRequest) (j : JSON) (h : r.Marshal = .ok j) :
    ∃ mssFix, marshalAny r.MssFix = .ok mssFix ∧ j = .obj (r.members mssFix) := by
  unfold ServerRequest.Marshal at h
  cases hm : marshalAny r.MssFix with
  | error e => rw [hm] at h; simp at h
  | ok m =>
    rw [hm] at h
    exact ⟨m, rfl, (Except.ok.inj h).symm⟩

theorem mem_keysOf_omitempty (key k : String) (v : Option JSON) :
    k ∈ keysOf (omitempty key v) ↔ (k = key ∧ v ≠ none) := by
  cases v <;> simp [omitempty, keysOf]

theorem keysOf_append (a b : List (String × JSON)) :
    keysOf (a ++ b) = keysOf a ++ keysOf b := by
  simp [keysOf]

theorem keysOf_cons (a : String × JSON) (b : List (String × JSON)) :
    keysOf (a :: b) = a.1 :: keysOf b := by
  simp [keysOf]

theorem keysOf_nil : keysOf [] = [] := rfl

theorem members_optional_keys (r : ServerRequest) (m : JSON) :
    ("network_start" ∈ keysOf (r.members m) ↔ r.NetworkStart ≠ none) ∧
    ("network_end" ∈ keysOf (r.members m) ↔ r.NetworkEnd ≠ none) ∧
    ("bind_address" ∈ keysOf (r.members m) ↔ r.BindAddress ≠ none) ∧
    ("inactive_timeout" ∈ keysOf (r.members m) ↔ r.InactiveTimeout ≠ none) ∧
    ("session_timeout" ∈ keysOf (r.members m) ↔ r.SessionTimeout ≠ none) ∧
    ("allowed_devices" ∈ keysOf (r.members m) ↔ r.AllowedDevices ≠ none) := by
  simp [ServerRequest.members, keysOf_append, keysOf_cons, keysOf_nil, mem_keysOf_omitempty]

theorem mem_omitempty_null_str (key k : String) (o : Option String) :
    (k, JSON.null) ∈ omitempty key (o.map JSON.str) ↔ False := by
  cases o <;> simp [omitempty]

theorem mem_omitempty_null_int (key k : String) (o : Option GoInt) :
    (k, JSON.null) ∈ omitempty key (o.map intJSON) ↔ False := by
  cases o <;> simp [omitempty, intJSON]

theorem stringsJSON_null (x : Slice String) : JSON.null = stringsJSON x ↔ x = none := by
  cases x <;> simp [stringsJSON]

theorem members_null (r : ServerRequest) (m : JSON) (key : String)
    (h : (key, JSON.null) ∈ r.members m) :
    (key = "groups" ∧ r.Groups = none) ∨ (key = "dns_servers" ∧ r.DnsServers = none) ∨
      (key = "mss_fix" ∧ m = .null) := by
  simp only [ServerRequest.members, List.mem_append, List.mem_cons, Prod.mk.injEq,
    mem_omitempty_null_str, mem_omitempty_null_int, List.mem_singleton, reduceCtorEq,
    and_false, or_false, false_or, List.not_mem_nil, intJSON, stringsJSON_null] at h
  rcases h with (h | h) | h
  · exact Or.inl h
  · exact Or.inr (Or.inl h)
  · exact Or.inr (Or.inr ⟨h.1, h.2.symm⟩)

/-! ## Lemmas on the round trip -/

/-- C1: a body that is a JSON array whose elements each parse as a
`ServerResponse` (the empty array included), decoded by `handleUnmarshalServers`
into an empty sequence (nil or of length zero), gives no error and the sequence
of the direct parses of the elements: same length, element `i` the direct parse
of element `i`.  The result is what the array decode left, nothing is appended
by the single-object fallback, and the body `[]` gives a sequence of length zero
without error. -/
theorem handleUnmarshalServers_array_path (elems : List JSON)
    (servers : Slice ServerResponse) (hempty : servers = none ∨ servers = some [])
    (h : ∀ e ∈ elems, (directParse e).2 = none) :
    (handleUnmarshalServers (Reader.of (.json (.arr elems))) servers).2 = none ∧
    Slice.len (handleUnmarshalServers (Reader.of (.json (.arr elems))) servers).1
      = elems.length ∧
    (∀ (i : Nat) (e : JSON), elems[i]? = some e →
      ((handleUnmarshalServers (Reader.of (.json (.arr elems))) servers).1.getD [])[i]?
        = some (directParse e).1) ∧
    (handleUnmarshalServers (Reader.of (.json (.arr elems))) servers).1
      = (UnmarshalServers (.json (.arr elems)) servers).1 ∧
    handleUnmarshalServers (Reader.of (.json (.arr []))) servers = (some [], none) := by
  have hd : servers.getD [] = [] := by
    rcases hempty with h0 | h0 <;> simp [h0]
  rw [handleUnmarshalServers_arr elems servers hempty h]
  refine ⟨rfl, by simp [Slice.len], ?_, ?_, ?_⟩
  · intro i e hi
    simp [List.getElem?_map, hi]
  · simp only [UnmarshalServers_arr, hd, decodeElems_fresh elems h]
  · exact handleUnmarshalServers_arr [] servers hempty (fun e he => absurd he (List.not_mem_nil e))

/-- Witness of C1: the body `[{"id":"a"},{"id":"b","port":443}]`. -/
theorem handleUnmarshalServers_array_path_witness :
    ((none : Slice ServerResponse) = none ∨ (none : Slice ServerResponse) = some []) ∧
    (∀ e ∈ [JSON.obj [("id", .str "a")],
        JSON.obj [("id", .str "b"), ("port", .num ⟨false, 443, none, none⟩)]],
      (directParse e).2 = none) ∧
    (handleUnmarshalServers (Reader.of (.json (.arr [JSON.obj [("id", .str "a")],
        JSON.obj [("id", .str "b"), ("port", .num ⟨false, 443, none, none⟩)]]))) none).2
      = none := by
  have hp : ∀ e ∈ [JSON.obj [("id", .str "a")],
      JSON.obj [("id", .str "b"), ("port", .num ⟨false, 443, none, none⟩)]],
      (directParse e).2 = none := by
    intro e he
    simp only [List.mem_cons, List.mem_singleton, List.not_mem_nil, or_false] at he
    rcases he with rfl | rfl <;> rfl
  exact ⟨Or.inl rfl, hp, (handleUnmarshalServers_array_path _ none (Or.inl rfl) hp).1⟩

/-- C2: a body that is a JSON object which parses as a `ServerResponse`, decoded
by `handleUnmarshalServers` into an empty sequence, gives no error and the
sequence of exactly one element, the direct parse of the object; `ServerGet`,
`ServerCreate` and `ServerUpdate`, which start from the nil sequence, return
that one-element sequence and a nil error whenever the response body they are
given is such an object. -/
theorem handleUnmarshalServers_single_object (members : List (String × JSON))
    (servers : Slice ServerResponse) (hempty : servers = none ∨ servers = some [])
    (h : (directParse (.obj members)).2 = none) :
    handleUnmarshalServers (Reader.of (.json (.obj members))) servers =
      (some [(directParse (.obj members)).1], none) ∧
    (∀ {Response : Type} (c : Client Response) (srvId : List String),
      c.Delivers "GET" (getPath srvId) none (Reader.of (.json (.obj members))) →
      (ServerGet c srvId).servers = some [(directParse (.obj members)).1] ∧
      (ServerGet c srvId).err = none) ∧
    (∀ {Response : Type} (c : Client Response) (newServer : ServerRequest)
      (serverData : JSON), newServer.Marshal = .ok serverData →
      c.Delivers "POST" "/server" (some (.json serverData))
        (Reader.of (.json (.obj members))) →
      (ServerCreate c newServer).servers = some [(directParse (.obj members)).1] ∧
      (ServerCreate c newServer).err = none) ∧
    (∀ {Response : Type} (c : Client Response) (srvId : String) (newServer : ServerRequest)
      (serverData : JSON), newServer.Marshal = .ok serverData →
      c.Delivers "PUT" ("/server/" ++ srvId) (some (.json serverData))
        (Reader.of (.json (.obj members))) →
      (ServerUpdate c srvId newServer).servers = some [(directParse (.obj members)).1] ∧
      (ServerUpdate c srvId newServer).err = none) := by
  have hh := handleUnmarshalServers_obj members none (Or.inl rfl) h
  refine ⟨handleUnmarshalServers_obj members servers hempty h, ?_, ?_, ?_⟩
  · intro Response c srvId hd
    have := ServerGet_delivered c srvId _ hd
    rw [hh] at this
    exact Prod.mk.inj this
  · intro Response c newServer serverData hm hd
    have := ServerCreate_delivered c newServer serverData _ hm hd
    rw [hh] at this
    exact Prod.mk.inj this
  · intro Response c srvId newServer serverData hm hd
    have := ServerUpdate_delivered c srvId newServer serverData _ hm hd
    rw [hh] at this
    exact Prod.mk.inj this

/-- Witness of C2: the body `{"id":"5a","status":"online","name":"vpn1"}` gives
one element whose ID is `5a`. -/
theorem handleUnmarshalServers_single_object_witness :
    ((none : Slice ServerResponse) = none ∨ (none : Slice ServerResponse) = some []) ∧
    (directParse (.obj [("id", .str "5a"), ("status", .str "online"),
      ("name", .str "vpn1")])).2 = none ∧
    handleUnmarshalServers (Reader.of (.json (.obj [("id", .str "5a"),
      ("status", .str "online"), ("name", .str "vpn1")]))) none =
      (some [{ ID := "5a", Status := "online", Name := "vpn1" }], none) :=
  ⟨Or.inl rfl, rfl,
    (handleUnmarshalServers_single_object [("id", .str "5a"), ("status", .str "online"),
      ("name", .str "vpn1")] none (Or.inl rfl) rfl).1⟩

/-- C3, as stated, fails: the body `null` is neither a JSON array nor a JSON
object, yet `handleUnmarshalServers` returns no error on it (the array decode
accepts null and leaves the nil sequence). -/
theorem handleUnmarshalServers_null_no_error :
    isServerArray (.json .null) = false ∧ isServerObject (.json .null) = false ∧
    (handleUnmarshalServers (Reader.of (.json .null)) none).2 = none :=
  ⟨rfl, rfl, rfl⟩

/-- C3, amended: for every body other than the literal `null` that is neither a
JSON array whose elements all parse as `ServerResponse` nor a JSON object that
parses as one (malformed text, a bare string, number or boolean, an array or
object with an ill-typed part), `handleUnmarshalServers` started on the nil
sequence returns an error, which wraps the error of the array decode; and
`ServerGet`, `ServerCreate` and `ServerUpdate`, given that body, return exactly
that error with the nil sequence. -/
theorem handleUnmarshalServers_decode_error (body : Bytes) (hnull : body ≠ .json .null)
    (harr : isServerArray body = false) (hobj : isServerObject body = false) :
    (∃ arrayErr, (UnmarshalServers body none).2 = some arrayErr ∧
      (handleUnmarshalServers (Reader.of body) none).2
        = some (.wrap "failed to unmarshal server response" arrayErr)) ∧
    (∀ {Response : Type} (c : Client Response) (srvId : List String),
      c.Delivers "GET" (getPath srvId) none (Reader.of body) →
      (ServerGet c srvId).servers = none ∧
      (ServerGet c srvId).err = (handleUnmarshalServers (Reader.of body) none).2) ∧
    (∀ {Response : Type} (c : Client Response) (newServer : ServerRequest)
      (serverData : JSON), newServer.Marshal = .ok serverData →
      c.Delivers "POST" "/server" (some (.json serverData)) (Reader.of body) →
      (ServerCreate c newServer).servers = none ∧
      (ServerCreate c newServer).err = (handleUnmarshalServers (Reader.of body) none).2) ∧
    (∀ {Response : Type} (c : Client Response) (srvId : String) (newServer : ServerRequest)
      (serverData : JSON), newServer.Marshal = .ok serverData →
      c.Delivers "PUT" ("/server/" ++ srvId) (some (.json serverData)) (Reader.of body) →
      (ServerUpdate c srvId newServer).servers = none ∧
      (ServerUpdate c srvId newServer).err
        = (handleUnmarshalServers (Reader.of body) none).2) := by
  have key : ∃ servers1 arrayErr, UnmarshalServers body none = (servers1, some arrayErr) ∧
      (UnmarshalServer body ServerResponse.zero).2 ≠ none := by
    cases body with
    | malformed msg => exact ⟨none, .invalidJSON msg, rfl, by simp [UnmarshalServer]⟩
    | json v =>
      cases v with
      | null => exact absurd rfl hnull
      | bool b => exact ⟨none, _, rfl, by simp [UnmarshalServer, decodeServer]⟩
      | num n => exact ⟨none, _, rfl, by simp [UnmarshalServer, decodeServer]⟩
      | str x => exact ⟨none, _, rfl, by simp [UnmarshalServer, decodeServer]⟩
      | arr elems =>
        have hne : (decodeElems decodeServer ServerResponse.zero elems []).2 ≠ none := by
          intro h0
          have hall := (decodeElems_error_none elems).mp h0
          have : isServerArray (.json (.arr elems)) = true := by
            simp only [isServerArray, List.all_eq_true, parsesAsServer, Option.isNone_iff_eq_none]
            exact hall
          rw [this] at harr
          exact absurd harr (by simp)
        obtain ⟨e0, he0⟩ := Option.ne_none_iff_exists'.mp hne
        refine ⟨some (decodeElems decodeServer ServerResponse.zero elems []).1, e0, ?_,
          by simp [UnmarshalServer, decodeServer]⟩
        simp only [UnmarshalServers_arr, Option.getD_none, he0]
      | obj members =>
        refine ⟨none, _, rfl, ?_⟩
        intro h0
        have : isServerObject (.json (.obj members)) = true := by
          simp only [isServerObject, parsesAsServer, Option.isNone_iff_eq_none]
          exact h0
        rw [this] at hobj
        exact absurd hobj (by simp)
  obtain ⟨servers1, arrayErr, h1, h2⟩ := key
  have hh := handleUnmarshalServers_both_fail body none servers1 arrayErr h1 h2
  refine ⟨⟨arrayErr, by rw [h1], by rw [hh]⟩, ?_, ?_, ?_⟩
  · intro Response c srvId hd
    have := ServerGet_delivered c srvId _ hd
    rw [hh] at this ⊢
    exact Prod.mk.inj this
  · intro Response c newServer serverData hm hd
    have := ServerCreate_delivered c newServer serverData _ hm hd
    rw [hh] at this ⊢
    exact Prod.mk.inj this
  · intro Response c srvId newServer serverData hm hd
    have := ServerUpdate_delivered c srvId newServer serverData _ hm hd
    rw [hh] at this ⊢
    exact Prod.mk.inj this

/-- Witness of C3, amended: the malformed body `not json`. -/
theorem handleUnmarshalServers_decode_error_witness :
    Bytes.malformed "invalid character 'o' in literal null (expecting 'u')" ≠ .json .null ∧
    isServerArray (.malformed "invalid character 'o' in literal null (expecting 'u')")
      = false ∧
    isServerObject (.malformed "invalid character 'o' in literal null (expecting 'u')")
      = false ∧
    ∃ arrayErr,
      (UnmarshalServers (.malformed "invalid character 'o' in literal null (expecting 'u')")
        none).2 = some arrayErr ∧
      (handleUnmarshalServers
        (Reader.of (.malformed "invalid character 'o' in literal null (expecting 'u')"))
        none).2 = some (.wrap "failed to unmarshal server response" arrayErr) :=
  ⟨by simp, rfl, rfl,
    (handleUnmarshalServers_decode_error
      (.malformed "invalid character 'o' in literal null (expecting 'u')")
      (by simp) rfl rfl).1⟩

/-- C4: whenever the array decode of a body fails with `arrayErr` and the
single-object decode fails too, with whatever error, the error that
`handleUnmarshalServers` returns is the wrapping of `arrayErr`: unwrapping it
gives exactly `arrayErr`, hence not the single-object error when the two
differ. -/
theorem handleUnmarshalServers_wraps_array_error (bodyBytes : Bytes)
    (servers servers1 : Slice ServerResponse) (single : ServerResponse)
    (arrayErr singleErr : GoError)
    (h1 : UnmarshalServers bodyBytes servers = (servers1, some arrayErr))
    (h2 : UnmarshalServer bodyBytes ServerResponse.zero = (single, some singleErr)) :
    (handleUnmarshalServers (Reader.of bodyBytes) servers).2
      = some (.wrap "failed to unmarshal server response" arrayErr) ∧
    (handleUnmarshalServers (Reader.of bodyBytes) servers).2.bind GoError.Unwrap
      = some arrayErr ∧
    (arrayErr ≠ singleErr →
      (handleUnmarshalServers (Reader.of bodyBytes) servers).2.bind GoError.Unwrap
        ≠ some singleErr) := by
  have hh := handleUnmarshalServers_both_fail bodyBytes servers servers1 arrayErr h1
    (by rw [h2]; simp)
  rw [hh]
  refine ⟨rfl, rfl, ?_⟩
  intro hne h
  exact hne (Option.some.inj h)

/-- Witness of C4: the body `"abc"`, a bare string; the two decode errors
differ in the Go type they name. -/
theorem handleUnmarshalServers_wraps_array_error_witness :
    UnmarshalServers (.json (.str "abc")) none
      = (none, some (.unmarshalType "string" "[]pritunl.ServerResponse")) ∧
    UnmarshalServer (.json (.str "abc")) ServerResponse.zero
      = (ServerResponse.zero, some (.unmarshalType "string" "pritunl.ServerResponse")) ∧
    (handleUnmarshalServers (Reader.of (.json (.str "abc"))) none).2.bind GoError.Unwrap
      = some (.unmarshalType "string" "[]pritunl.ServerResponse") :=
  ⟨rfl, rfl,
    (handleUnmarshalServers_wraps_array_error (.json (.str "abc")) none none
      ServerResponse.zero _ _ rfl rfl).2.1⟩

/-- C5, as stated, fails: when the response body is `null`, `ServerGet` returns
the nil sequence together with a nil error. -/
theorem ServerGet_null_body_nil_nil :
    (ServerGet (Client.answering (Reader.of (.json .null))) []).servers = none ∧
    (ServerGet (Client.answering (Reader.of (.json .null))) []).err = none :=
  ⟨rfl, rfl⟩

/-- C5, amended: whatever the collaborators do, `ServerGet`, `ServerCreate` and
`ServerUpdate` never return a non-nil sequence together with a non-nil error
(one of the two is nil); they return the nil sequence together with a nil error
only when the response body they were given is the JSON literal `null`; and
whenever the response body they are given is `null`, they do return the nil
sequence together with a nil error. -/
theorem operations_sequence_or_error {Response : Type} (c : Client Response) :
    (∀ srvId : List String,
      ((ServerGet c srvId).servers = none ∨ (ServerGet c srvId).err = none) ∧
      ((ServerGet c srvId).servers = none → (ServerGet c srvId).err = none →
        ∃ body, c.Delivers "GET" (getPath srvId) none body ∧
          body.ReadAll = .ok (.json .null)) ∧
      (∀ body, c.Delivers "GET" (getPath srvId) none body →
        body.ReadAll = .ok (.json .null) →
        (ServerGet c srvId).servers = none ∧ (ServerGet c srvId).err = none)) ∧
    (∀ newServer : ServerRequest,
      ((ServerCreate c newServer).servers = none ∨ (ServerCreate c newServer).err = none) ∧
      ((ServerCreate c newServer).servers = none → (ServerCreate c newServer).err = none →
        ∃ serverData body, newServer.Marshal = .ok serverData ∧
          c.Delivers "POST" "/server" (some (.json serverData)) body ∧
          body.ReadAll = .ok (.json .null)) ∧
      (∀ serverData body, newServer.Marshal = .ok serverData →
        c.Delivers "POST" "/server" (some (.json serverData)) body →
        body.ReadAll = .ok (.json .null) →
        (ServerCreate c newServer).servers = none ∧ (ServerCreate c newServer).err = none)) ∧
    (∀ (srvId : String) (newServer : ServerRequest),
      ((ServerUpdate c srvId newServer).servers = none ∨
        (ServerUpdate c srvId newServer).err = none) ∧
      ((ServerUpdate c srvId newServer).servers = none →
        (ServerUpdate c srvId newServer).err = none →
        ∃ serverData body, newServer.Marshal = .ok serverData ∧
          c.Delivers "PUT" ("/server/" ++ srvId) (some (.json serverData)) body ∧
          body.ReadAll = .ok (.json .null)) ∧
      (∀ serverData body, newServer.Marshal = .ok serverData →
        c.Delivers "PUT" ("/server/" ++ srvId) (some (.json serverData)) body →
        body.ReadAll = .ok (.json .null) →
        (ServerUpdate c srvId newServer).servers = none ∧
        (ServerUpdate c srvId newServer).err = none)) := by
  refine ⟨?_, ?_, ?_⟩
  · intro srvId
    rw [ServerGet_eq_exchange]
    exact ⟨(exchange_results c "GET" (getPath srvId) none).1,
      (exchange_results c "GET" (getPath srvId) none).2,
      fun body hd hb => exchange_null c _ _ _ body hd hb⟩
  · intro newServer
    cases hm : newServer.Marshal with
    | error err =>
      have h0 : ServerCreate c newServer
          = ⟨[], none, some (.wrap "failed to marshal server data" err)⟩ := by
        simp only [ServerCreate, hm]
      rw [h0]
      exact ⟨Or.inl rfl, fun _ h => absurd h (by simp), fun _ _ h => absurd h (by simp)⟩
    | ok serverData =>
      rw [ServerCreate_eq_exchange c newServer serverData hm]
      have h := exchange_results c "POST" "/server" (some (.json serverData))
      refine ⟨h.1, fun hs he => ?_, fun sd body hsd hd hb => ?_⟩
      · obtain ⟨body, hd, hb⟩ := h.2 hs he
        exact ⟨serverData, body, rfl, hd, hb⟩
      · cases Except.ok.inj hsd
        exact exchange_null c _ _ _ body hd hb
  · intro srvId newServer
    cases hm : newServer.Marshal with
    | error err =>
      have h0 : ServerUpdate c srvId newServer
          = ⟨[], none, some (.wrap "failed to marshal server data" err)⟩ := by
        simp only [ServerUpdate, hm]
      rw [h0]
      exact ⟨Or.inl rfl, fun _ h => absurd h (by simp), fun _ _ h => absurd h (by simp)⟩
    | ok serverData =>
      rw [ServerUpdate_eq_exchange c srvId newServer serverData hm]
      have h := exchange_results c "PUT" ("/server/" ++ srvId) (some (.json serverData))
      refine ⟨h.1, fun hs he => ?_, fun sd body hsd hd hb => ?_⟩
      · obtain ⟨body, hd, hb⟩ := h.2 hs he
        exact ⟨serverData, body, rfl, hd, hb⟩
      · cases Except.ok.inj hsd
        exact exchange_null c _ _ _ body hd hb

/-- Witness of C5, amended: with a client whose response body is `[]`, the
sequence `ServerGet` returns is non-nil and the error is nil; with a client
whose response body is `null`, `ServerCreate` and `ServerUpdate` return the nil
sequence and a nil error. -/
theorem operations_sequence_or_error_witness :
    ((ServerGet (Client.answering (Reader.of (.json (.arr [])))) []).servers = none ∨
      (ServerGet (Client.answering (Reader.of (.json (.arr [])))) []).err = none) ∧
    (ServerGet (Client.answering (Reader.of (.json (.arr [])))) []).servers = some [] ∧
    ((ServerCreate (Client.answering (Reader.of (.json .null))) sampleRequest).servers = none ∧
      (ServerCreate (Client.answering (Reader.of (.json .null))) sampleRequest).err = none) ∧
    ((ServerUpdate (Client.answering (Reader.of (.json .null))) "abc" sampleRequest).servers
        = none ∧
      (ServerUpdate (Client.answering (Reader.of (.json .null))) "abc" sampleRequest).err
        = none) :=
  ⟨((operations_sequence_or_error (Client.answering (Reader.of (.json (.arr []))))).1 []).1,
    rfl,
    ((operations_sequence_or_error (Client.answering (Reader.of (.json .null)))).2.1
      sampleRequest).2.2 _ (Reader.of (.json .null)) rfl ⟨(), rfl, rfl⟩ rfl,
    ((operations_sequence_or_error (Client.answering (Reader.of (.json .null)))).2.2
      "abc" sampleRequest).2.2 _ (Reader.of (.json .null)) rfl ⟨(), rfl, rfl⟩ rfl⟩

/-- C6, as stated, fails: `ServerCreate` on a request whose `MssFix` holds a
channel, which `json.Marshal` rejects, issues no request at all. -/
theorem ServerCreate_unsupported_no_request :
    requestsOf (ServerCreate (Client.answering (Reader.of (.json (.arr []))))
      channelRequest).trace = [] ∧
    (ServerCreate (Client.answering (Reader.of (.json (.arr [])))) channelRequest).err
      = some (.wrap "failed to marshal server data"
          (.unsupportedValue "json: unsupported type: chan int")) :=
  ⟨rfl, rfl⟩

/-- C6, amended: `ServerGet` with no identifier issues exactly one request, GET
on `/server`; with identifiers, exactly one request, GET on `/server/` followed
by the first identifier, whatever the others are; `ServerCreate` and
`ServerUpdate`, when the request object serializes, issue exactly one request,
POST on `/server` and PUT on `/server/` followed by the identifier, carrying
the serialized object; when `json.Marshal` fails with `err` they issue no
request and return the nil sequence with the error that wraps `err` under
`failed to marshal server data`. -/
theorem request_routing {Response : Type} (c : Client Response) :
    requestsOf (ServerGet c []).trace = [("GET", "/server", none)] ∧
    (∀ (first : String) (rest : List String),
      requestsOf (ServerGet c (first :: rest)).trace
        = [("GET", "/server/" ++ first, none)]) ∧
    (∀ (newServer : ServerRequest) (serverData : JSON),
      newServer.Marshal = .ok serverData →
      requestsOf (ServerCreate c newServer).trace
        = [("POST", "/server", some (.json serverData))]) ∧
    (∀ (srvId : String) (newServer : ServerRequest) (serverData : JSON),
      newServer.Marshal = .ok serverData →
      requestsOf (ServerUpdate c srvId newServer).trace
        = [("PUT", "/server/" ++ srvId, some (.json serverData))]) ∧
    (∀ (newServer : ServerRequest) (err : GoError),
      newServer.Marshal = .error err →
      requestsOf (ServerCreate c newServer).trace = [] ∧
      (ServerCreate c newServer).servers = none ∧
      (ServerCreate c newServer).err
        = some (.wrap "failed to marshal server data" err)) ∧
    (∀ (srvId : String) (newServer : ServerRequest) (err : GoError),
      newServer.Marshal = .error err →
      requestsOf (ServerUpdate c srvId newServer).trace = [] ∧
      (ServerUpdate c srvId newServer).servers = none ∧
      (ServerUpdate c srvId newServer).err
        = some (.wrap "failed to marshal server data" err)) := by
  refine ⟨?_, ?_, ?_, ?_, ?_, ?_⟩
  · rw [ServerGet_eq_exchange]; exact exchange_requests c _ _ _
  · intro first rest
    rw [ServerGet_eq_exchange]; exact exchange_requests c _ _ _
  · intro newServer serverData hm
    rw [ServerCreate_eq_exchange c newServer serverData hm]; exact exchange_requests c _ _ _
  · intro srvId newServer serverData hm
    rw [ServerUpdate_eq_exchange c srvId newServer serverData hm]
    exact exchange_requests c _ _ _
  · intro newServer err hm
    have h0 : ServerCreate c newServer
        = ⟨[], none, some (.wrap "failed to marshal server data" err)⟩ := by
      simp only [ServerCreate, hm]
    rw [h0]
    exact ⟨rfl, rfl, rfl⟩
  · intro srvId newServer err hm
    have h0 : ServerUpdate c srvId newServer
        = ⟨[], none, some (.wrap "failed to marshal server data" err)⟩ := by
      simp only [ServerUpdate, hm]
    rw [h0]
    exact ⟨rfl, rfl, rfl⟩

/-- Witness of C6, amended: `ServerGet` with the identifiers `abc`, `def`
requests `/server/abc`; `ServerUpdate` with the identifier `abc` sends its one
request to `/server/abc`; and `ServerUpdate` of a request whose `MssFix` is a
channel sends nothing and returns the wrapped encode error. -/
theorem request_routing_witness :
    requestsOf (ServerGet (Client.answering (Reader.of (.json (.arr []))))
      ["abc", "def"]).trace = [("GET", "/server/abc", none)] ∧
    sampleRequest.Marshal
      = .ok (.obj (sampleRequest.members (.num ⟨false, 1400, none, none⟩))) ∧
    requestsOf (ServerUpdate (Client.answering (Reader.of (.json (.arr []))))
      "abc" sampleRequest).trace
      = [("PUT", "/server/abc",
          some (.json (.obj (sampleRequest.members (.num ⟨false, 1400, none, none⟩)))))] ∧
    channelRequest.Marshal
      = .error (.unsupportedValue "json: unsupported type: chan int") ∧
    requestsOf (ServerUpdate (Client.answering (Reader.of (.json (.arr []))))
      "abc" channelRequest).trace = [] ∧
    (ServerUpdate (Client.answering (Reader.of (.json (.arr [])))) "abc" channelRequest).servers
      = none ∧
    (ServerUpdate (Client.answering (Reader.of (.json (.arr [])))) "abc" channelRequest).err
      = some (.wrap "failed to marshal server data"
          (.unsupportedValue "json: unsupported type: chan int")) :=
  ⟨(request_routing (Client.answering (Reader.of (.json (.arr []))))).2.1 "abc" ["def"],
    rfl,
    (request_routing (Client.answering (Reader.of (.json (.arr []))))).2.2.2.1 "abc"
      sampleRequest _ rfl,
    rfl,
    (request_routing (Client.answering (Reader.of (.json (.arr []))))).2.2.2.2.2 "abc"
      channelRequest _ rfl⟩

/-- C10: in `ServerGet`, `ServerCreate` and `ServerUpdate`, when the request
sender fails with `e`, or it succeeds and the body extractor fails with `e`,
the operation returns the nil sequence and exactly `e`, and
`handleUnmarshalServers` is not called. -/
theorem transport_error_unchanged {Response : Type} (c : Client Response) (e : GoError) :
    (∀ srvId : List String,
      (c.AuthRequest "GET" (getPath srvId) none = .error e ∨
        ∃ response, c.AuthRequest "GET" (getPath srvId) none = .ok response ∧
          c.handleResponse response = .error e) →
      (ServerGet c srvId).servers = none ∧ (ServerGet c srvId).err = some e ∧
      unmarshalCount (ServerGet c srvId).trace = 0) ∧
    (∀ (newServer : ServerRequest) (serverData : JSON),
      newServer.Marshal = .ok serverData →
      (c.AuthRequest "POST" "/server" (some (.json serverData)) = .error e ∨
        ∃ response, c.AuthRequest "POST" "/server" (some (.json serverData)) = .ok response ∧
          c.handleResponse response = .error e) →
      (ServerCreate c newServer).servers = none ∧ (ServerCreate c newServer).err = some e ∧
      unmarshalCount (ServerCreate c newServer).trace = 0) ∧
    (∀ (srvId : String) (newServer : ServerRequest) (serverData : JSON),
      newServer.Marshal = .ok serverData →
      (c.AuthRequest "PUT" ("/server/" ++ srvId) (some (.json serverData)) = .error e ∨
        ∃ response,
          c.AuthRequest "PUT" ("/server/" ++ srvId) (some (.json serverData)) = .ok response ∧
          c.handleResponse response = .error e) →
      (ServerUpdate c srvId newServer).servers = none ∧
      (ServerUpdate c srvId newServer).err = some e ∧
      unmarshalCount (ServerUpdate c srvId newServer).trace = 0) := by
  have key : ∀ (method path : String) (data : Option Bytes),
      (c.AuthRequest method path data = .error e ∨
        ∃ response, c.AuthRequest method path data = .ok response ∧
          c.handleResponse response = .error e) →
      (exchange c method path data).servers = none ∧
      (exchange c method path data).err = some e ∧
      unmarshalCount (exchange c method path data).trace = 0 := by
    intro method path data h
    rcases h with h | ⟨response, h1, h2⟩
    · unfold exchange; rw [h]; exact ⟨rfl, rfl, rfl⟩
    · unfold exchange; rw [h1]; dsimp only; rw [h2]; exact ⟨rfl, rfl, rfl⟩
  refine ⟨?_, ?_, ?_⟩
  · intro srvId h
    rw [ServerGet_eq_exchange]; exact key _ _ _ h
  · intro newServer serverData hm h
    rw [ServerCreate_eq_exchange c newServer serverData hm]; exact key _ _ _ h
  · intro srvId newServer serverData hm h
    rw [ServerUpdate_eq_exchange c srvId newServer serverData hm]; exact key _ _ _ h

/-- Witness of C10: a transport that fails with `connection refused`, and one
that answers with a status the body extractor rejects. -/
theorem transport_error_unchanged_witness :
    ((Client.failing (.other "connection refused")).AuthRequest "GET" (getPath ["abc"]) none
      = .error (.other "connection refused") ∧
    (ServerGet (Client.failing (.other "connection refused")) ["abc"]).servers = none ∧
    (ServerGet (Client.failing (.other "connection refused")) ["abc"]).err
      = some (.other "connection refused") ∧
    unmarshalCount (ServerGet (Client.failing (.other "connection refused")) ["abc"]).trace
      = 0) ∧
    (ServerGet (Client.rejecting (.other "401 Unauthorized")) []).servers = none ∧
    (ServerGet (Client.rejecting (.other "401 Unauthorized")) []).err
      = some (.other "401 Unauthorized") ∧
    unmarshalCount (ServerGet (Client.rejecting (.other "401 Unauthorized")) []).trace = 0 :=
  ⟨⟨rfl, (transport_error_unchanged (Client.failing (.other "connection refused"))
      (.other "connection refused")).1 ["abc"] (Or.inl rfl)⟩,
    (transport_error_unchanged (Client.rejecting (.other "401 Unauthorized"))
      (.other "401 Unauthorized")).1 [] (Or.inr ⟨(), rfl, rfl⟩)⟩

/-- C7: for every `ServerRequest` that `json.Marshal` serializes, the body is a
JSON object that has the key of an optional field (`network_start`,
`network_end`, `bind_address`, `inactive_timeout`, `session_timeout`,
`allowed_devices`) if and only if the field is present (non-nil) in the request,
so a request with none of them has none of these keys; and this object is the
body of the one request `ServerCreate` and `ServerUpdate` send. -/
theorem Marshal_optional_keys (newServer : ServerRequest) (serverData : JSON)
    (h : newServer.Marshal = .ok serverData) :
    ∃ members, serverData = .obj members ∧
      ("network_start" ∈ keysOf members ↔ newServer.NetworkStart ≠ none) ∧
      ("network_end" ∈ keysOf members ↔ newServer.NetworkEnd ≠ none) ∧
      ("bind_address" ∈ keysOf members ↔ newServer.BindAddress ≠ none) ∧
      ("inactive_timeout" ∈ keysOf members ↔ newServer.InactiveTimeout ≠ none) ∧
      ("session_timeout" ∈ keysOf members ↔ newServer.SessionTimeout ≠ none) ∧
      ("allowed_devices" ∈ keysOf members ↔ newServer.AllowedDevices ≠ none) ∧
      (∀ {Response : Type} (c : Client Response),
        requestsOf (ServerCreate c newServer).trace
          = [("POST", "/server", some (.json (.obj members)))]) ∧
      (∀ {Response : Type} (c : Client Response) (srvId : String),
        requestsOf (ServerUpdate c srvId newServer).trace
          = [("PUT", "/server/" ++ srvId, some (.json (.obj members)))]) := by
  obtain ⟨m, _, hj⟩ := Marshal_ok newServer serverData h
  subst hj
  obtain ⟨h1, h2, h3, h4, h5, h6⟩ := members_optional_keys newServer m
  refine ⟨_, rfl, h1, h2, h3, h4, h5, h6, ?_, ?_⟩
  · intro Response c
    rw [ServerCreate_eq_exchange c newServer _ h]; exact exchange_requests c _ _ _
  · intro Response c srvId
    rw [ServerUpdate_eq_exchange c srvId newServer _ h]; exact exchange_requests c _ _ _

/-- Witness of C7: the request with name `vpn1`, a bind address and no other
optional field. -/
theorem Marshal_optional_keys_witness :
    ServerRequest.Marshal { Name := "vpn1", BindAddress := some "10.0.0.1" }
      = .ok (.obj (ServerRequest.members
          { Name := "vpn1", BindAddress := some "10.0.0.1" } .null)) ∧
    ∃ members, JSON.obj (ServerRequest.members
          { Name := "vpn1", BindAddress := some "10.0.0.1" } .null) = .obj members ∧
      ("network_start" ∈ keysOf members ↔ (none : Option String) ≠ none) ∧
      ("network_end" ∈ keysOf members ↔ (none : Option String) ≠ none) ∧
      ("bind_address" ∈ keysOf members ↔ some "10.0.0.1" ≠ none) :=
  ⟨rfl,
    match Marshal_optional_keys { Name := "vpn1", BindAddress := some "10.0.0.1" } _ rfl with
    | ⟨members, hm, h1, h2, h3, _⟩ => ⟨members, hm, h1, h2, h3⟩⟩

/-- C8, as stated, fails: the request with every field at its zero value, whose
`MssFix` holds nothing, serializes to an object with the member
`"mss_fix": null`. -/
theorem Marshal_nil_MssFix_is_null :
    ({} : ServerRequest).MssFix = .nil ∧
    ∃ members, ({} : ServerRequest).Marshal = .ok (.obj members) ∧
      ("mss_fix", JSON.null) ∈ members :=
  ⟨rfl, _, rfl, by simp [ServerRequest.members, omitempty]⟩

/-- C8, amended: in the serialized body of a `ServerRequest` the six optional
fields are never written as null, an absent one has no key; the only members
that can be null are `groups` and `dns_servers`, exactly when the slice is nil,
and `mss_fix`, exactly when `json.Marshal` writes the value of `MssFix` as null,
which it does when `MssFix` holds nothing; in these cases the key is written
with the value null. -/
theorem Marshal_null_members (newServer : ServerRequest) (serverData : JSON)
    (h : newServer.Marshal = .ok serverData) :
    ∃ members, serverData = .obj members ∧
      (∀ key, (key, JSON.null) ∈ members →
        (key = "groups" ∧ newServer.Groups = none) ∨
        (key = "dns_servers" ∧ newServer.DnsServers = none) ∨
        (key = "mss_fix" ∧ marshalAny newServer.MssFix = .ok .null)) ∧
      (newServer.Groups = none → ("groups", JSON.null) ∈ members) ∧
      (newServer.DnsServers = none → ("dns_servers", JSON.null) ∈ members) ∧
      (marshalAny newServer.MssFix = .ok .null → ("mss_fix", JSON.null) ∈ members) ∧
      (newServer.MssFix = .nil → ("mss_fix", JSON.null) ∈ members) ∧
      (newServer.NetworkStart = none → "network_start" ∉ keysOf members) ∧
      (newServer.NetworkEnd = none → "network_end" ∉ keysOf members) ∧
      (newServer.BindAddress = none → "bind_address" ∉ keysOf members) ∧
      (newServer.InactiveTimeout = none → "inactive_timeout" ∉ keysOf members) ∧
      (newServer.SessionTimeout = none → "session_timeout" ∉ keysOf members) ∧
      (newServer.AllowedDevices = none → "allowed_devices" ∉ keysOf members) := by
  obtain ⟨m, hm, hj⟩ := Marshal_ok newServer serverData h
  subst hj
  obtain ⟨h1, h2, h3, h4, h5, h6⟩ := members_optional_keys newServer m
  have hmss : marshalAny newServer.MssFix = .ok .null →
      ("mss_fix", JSON.null) ∈ newServer.members m := by
    intro h0
    rw [h0] at hm
    cases Except.ok.inj hm
    simp [ServerRequest.members]
  refine ⟨_, rfl, ?_, ?_, ?_, hmss, fun h0 => hmss (by rw [h0]; rfl),
    fun h0 => by simp [h1, h0], fun h0 => by simp [h2, h0],
    fun h0 => by simp [h3, h0], fun h0 => by simp [h4, h0], fun h0 => by simp [h5, h0],
    fun h0 => by simp [h6, h0]⟩
  · intro key hk
    rcases members_null newServer m key hk with h0 | h0 | h0
    · exact Or.inl h0
    · exact Or.inr (Or.inl h0)
    · exact Or.inr (Or.inr ⟨h0.1, by rw [hm, h0.2]⟩)
  · intro h0
    simp [ServerRequest.members, h0, stringsJSON]
  · intro h0
    simp [ServerRequest.members, h0, stringsJSON]

/-- Witness of C8, amended: the request `sampleRequest` has no null member; a
request whose `MssFix` holds a nil pointer, which `json.Marshal` writes as
null, has the member `"mss_fix": null`. -/
theorem Marshal_null_members_witness :
    sampleRequest.Marshal
      = .ok (.obj (sampleRequest.members (.num ⟨false, 1400, none, none⟩))) ∧
    (∀ key, (key, JSON.null) ∉ sampleRequest.members (.num ⟨false, 1400, none, none⟩)) ∧
    ServerRequest.Marshal { MssFix := .other (.ok .null) }
      = .ok (.obj (ServerRequest.members { MssFix := .other (.ok .null) } .null)) ∧
    ("mss_fix", JSON.null) ∈ ServerRequest.members { MssFix := .other (.ok .null) } .null :=
  ⟨rfl, fun key hk =>
    match Marshal_null_members sampleRequest _ rfl with
    | ⟨members, hm, hnull, _⟩ => by
      cases hm
      rcases hnull key hk with h0 | h0 | h0
      · exact absurd h0.2 (by simp [sampleRequest])
      · exact absurd h0.2 (by simp [sampleRequest])
      · exact absurd h0.2 (by simp [sampleRequest, marshalAny, intJSON]),
    rfl,
    match Marshal_null_members { MssFix := .other (.ok .null) } _ rfl with
    | ⟨members, hm, _, _, _, hmss, _⟩ => by
      cases hm
      exact hmss rfl⟩

end Pritunl
